import Mathlib

/-!
Verification of the achroma repository: a color-vision taxonomy crate
(`achroma`) and an ICC profile data-model crate (`achroma_icc`).
Rust machine integers are embedded as `Nat` bit patterns (with explicit
`% 2^w` where overflow or field extraction matters), fallible conversions
as `Except`, and Rust `panic!` sites as `Option.none`.
-/

namespace Achroma

/-- The condition of a cone cell (`ConeCellCond` in `achroma/src/lib.rs`). -/
inductive ConeCellCond
  | Normal
  | Anomalous
  | Missing
deriving DecidableEq, Repr, Fintype

/-- `ConeCellSummary`: the conditions of the long, medium and short cones. -/
structure ConeCellSummary where
  l : ConeCellCond
  m : ConeCellCond
  s : ConeCellCond
deriving DecidableEq, Repr, Fintype

namespace ConeCellSummary

/-- `ConeCellSummary::new` (long, medium, short order). -/
def new (l m s : ConeCellCond) : ConeCellSummary := ⟨l, m, s⟩

def NORMAL : ConeCellSummary := new .Normal .Normal .Normal

def PROTANOMALY : ConeCellSummary := new .Anomalous .Normal .Normal

def PROTANOPIA : ConeCellSummary := new .Missing .Normal .Normal

def DEUTERANOMALY : ConeCellSummary := new .Normal .Anomalous .Normal

def DEUTERANOPIA : ConeCellSummary := new .Normal .Missing .Normal

def TRITANOMALY : ConeCellSummary := new .Normal .Normal .Anomalous

def TRITANOPIA : ConeCellSummary := new .Normal .Normal .Missing

def ACHROMATOMALY : ConeCellSummary := new .Missing .Missing .Normal

def ACHROMATOPSIA : ConeCellSummary := new .Missing .Missing .Missing

/-- `Index<usize> for ConeCellSummary`: indices 0, 1, 2 return the long,
medium and short cone conditions; every other index hits the `panic!`
arm, embedded here as `none`. -/
def indexUsize (cs : ConeCellSummary) (index : Nat) : Option ConeCellCond :=
  match index with
  | 0 => some cs.l
  | 1 => some cs.m
  | 2 => some cs.s
  | _ => none

end ConeCellSummary

/-- `ColorVision`: the nine vision kinds (`achroma/src/lib.rs`). -/
inductive ColorVision
  | Normal
  | Protanomaly
  | Protanopia
  | Deuteranomaly
  | Deuteranopia
  | Tritanomaly
  | Tritanopia
  | Achromatomaly
  | Achromatopsia
deriving DecidableEq, Repr, Fintype

/-- `impl From<ColorVision> for ConeCellSummary`. -/
def ConeCellSummary.fromVision (vision : ColorVision) : ConeCellSummary :=
  match vision with
  | .Normal => ConeCellSummary.NORMAL
  | .Protanomaly => ConeCellSummary.PROTANOMALY
  | .Protanopia => ConeCellSummary.PROTANOPIA
  | .Deuteranomaly => ConeCellSummary.DEUTERANOMALY
  | .Deuteranopia => ConeCellSummary.DEUTERANOPIA
  | .Tritanomaly => ConeCellSummary.TRITANOMALY
  | .Tritanopia => ConeCellSummary.TRITANOPIA
  | .Achromatomaly => ConeCellSummary.ACHROMATOMALY
  | .Achromatopsia => ConeCellSummary.ACHROMATOPSIA

/-- `impl TryFrom<ConeCellSummary> for ColorVision`: a sequential match
against the nine distinguished constants, `Err(())` otherwise.  The Rust
match on constants compares in order, embedded as an if-chain. -/
def ColorVision.tryFromSummary (summary : ConeCellSummary) :
    Except Unit ColorVision :=
  if summary = ConeCellSummary.NORMAL then .ok .Normal
  else if summary = ConeCellSummary.PROTANOMALY then .ok .Protanomaly
  else if summary = ConeCellSummary.PROTANOPIA then .ok .Protanopia
  else if summary = ConeCellSummary.DEUTERANOMALY then .ok .Deuteranomaly
  else if summary = ConeCellSummary.DEUTERANOPIA then .ok .Deuteranopia
  else if summary = ConeCellSummary.TRITANOMALY then .ok .Tritanomaly
  else if summary = ConeCellSummary.TRITANOPIA then .ok .Tritanopia
  else if summary = ConeCellSummary.ACHROMATOMALY then .ok .Achromatomaly
  else if summary = ConeCellSummary.ACHROMATOPSIA then .ok .Achromatopsia
  else .error ()

instance : DecidableEq (Except Unit ColorVision) := fun a b =>
  match a, b with
  | .error (), .error () => isTrue rfl
  | .error _, .ok _ => isFalse (fun h => Except.noConfusion h)
  | .ok _, .error _ => isFalse (fun h => Except.noConfusion h)
  | .ok x, .ok y => decidable_of_iff (x = y) (by simp)

end Achroma

namespace AchromaIcc

/-- `impl_num_primitive!(S15Fixed16, i32)`: a newtype over a 32-bit word.
The word is embedded as its bit pattern, a `Nat` below `2^32`. -/
structure S15Fixed16 where
  val : Nat
deriving DecidableEq, Repr

def S15Fixed16.new (value : Nat) : S15Fixed16 := ⟨value⟩

def S15Fixed16.get (v : S15Fixed16) : Nat := v.val

/-- `impl_num_primitive!(U16Fixed16, u32)`. -/
structure U16Fixed16 where
  val : Nat
deriving DecidableEq, Repr

def U16Fixed16.new (value : Nat) : U16Fixed16 := ⟨value⟩

def U16Fixed16.get (v : U16Fixed16) : Nat := v.val

/-- `impl_num_primitive!(U1Fixed15, u16)`. -/
structure U1Fixed15 where
  val : Nat
deriving DecidableEq, Repr

def U1Fixed15.new (value : Nat) : U1Fixed15 := ⟨value⟩

def U1Fixed15.get (v : U1Fixed15) : Nat := v.val

/-- `impl_num_primitive!(U8Fixed8, u16)`. -/
structure U8Fixed8 where
  val : Nat
deriving DecidableEq, Repr

def U8Fixed8.new (value : Nat) : U8Fixed8 := ⟨value⟩

def U8Fixed8.get (v : U8Fixed8) : Nat := v.val

/-- Modelled from the spec: the `FixedInt` trait impls for the fixed-point
types are absent from the source (`impl_num_fixed_int` and its invocations
are commented out in `numbers/mod.rs`); per the spec, `from_parts` packs an
integer field above a fractional field at a fixed per-type bit split, and
fractional values exceeding the fractional width keep the low-order bits.
`S15Fixed16` splits its 32-bit word as 16 integer bits over 16 fractional
bits (the integer field is the 16-bit two-complement pattern). -/
def S15Fixed16.from_parts (integer fractional : Nat) : S15Fixed16 :=
  ⟨((integer % 2 ^ 16) <<< 16) ||| (fractional % 2 ^ 16)⟩

def S15Fixed16.integer_part (v : S15Fixed16) : Nat := (v.val >>> 16) % 2 ^ 16

def S15Fixed16.fractional_part (v : S15Fixed16) : Nat := v.val % 2 ^ 16

/-- Modelled from the spec: `U16Fixed16` splits its 32-bit word as
16 integer bits over 16 fractional bits. -/
def U16Fixed16.from_parts (integer fractional : Nat) : U16Fixed16 :=
  ⟨((integer % 2 ^ 16) <<< 16) ||| (fractional % 2 ^ 16)⟩

def U16Fixed16.integer_part (v : U16Fixed16) : Nat := (v.val >>> 16) % 2 ^ 16

def U16Fixed16.fractional_part (v : U16Fixed16) : Nat := v.val % 2 ^ 16

/-- Modelled from the spec: `U1Fixed15` splits its 16-bit word as
1 integer bit over 15 fractional bits. -/
def U1Fixed15.from_parts (integer fractional : Nat) : U1Fixed15 :=
  ⟨((integer % 2 ^ 1) <<< 15) ||| (fractional % 2 ^ 15)⟩

def U1Fixed15.integer_part (v : U1Fixed15) : Nat := (v.val >>> 15) % 2 ^ 1

def U1Fixed15.fractional_part (v : U1Fixed15) : Nat := v.val % 2 ^ 15

/-- Modelled from the spec: `U8Fixed8` splits its 16-bit word as
8 integer bits over 8 fractional bits. -/
def U8Fixed8.from_parts (integer fractional : Nat) : U8Fixed8 :=
  ⟨((integer % 2 ^ 8) <<< 8) ||| (fractional % 2 ^ 8)⟩

def U8Fixed8.integer_part (v : U8Fixed8) : Nat := (v.val >>> 8) % 2 ^ 8

def U8Fixed8.fractional_part (v : U8Fixed8) : Nat := v.val % 2 ^ 8

/-- `DeviceAttributes`: a newtype over a 64-bit flag word. -/
structure DeviceAttributes where
  val : Nat
deriving DecidableEq, Repr

def DeviceAttributes.new (value : Nat) : DeviceAttributes := ⟨value⟩

/-- `impl From<u64> for DeviceAttributes`. -/
def DeviceAttributes.fromU64 (value : Nat) : DeviceAttributes := ⟨value⟩

/-- `impl From<[u32; 2]> for DeviceAttributes`:
`((value[0] as u64) << 32) | (value[1] as u64)`, where `value0` and
`value1` stand for the two array elements (each a 32-bit word, so the
shift cannot overflow the 64-bit result). -/
def DeviceAttributes.fromU32Pair (value0 value1 : Nat) : DeviceAttributes :=
  ⟨(value0 <<< 32) ||| value1⟩

/-- Big-endian packing of the bytes of an ASCII string into one integer,
as the `u32` form of a 4-character signature string. -/
def strToU32BE (s : String) : Nat :=
  s.data.foldl (fun a c => a * 256 + c.toNat) 0

/-- `ProfileClass` (Table 18, `lib.rs`), a `repr(u32)` enumeration. -/
inductive ProfileClass
  | InputDeviceProfile
  | DisplayDeviceProfile
  | OutputDeviceProfile
  | DeviceLinkProfile
  | ColorSpaceProfile
  | AbstractProfile
  | NamedColorProfile
deriving DecidableEq, Repr, Fintype

/-- The `repr(u32)` discriminants of `ProfileClass`. -/
def ProfileClass.toU32 : ProfileClass → Nat
  | .InputDeviceProfile => 0x73636E72
  | .DisplayDeviceProfile => 0x6D6E7472
  | .OutputDeviceProfile => 0x70727472
  | .DeviceLinkProfile => 0x6C696E6B
  | .ColorSpaceProfile => 0x73706163
  | .AbstractProfile => 0x61627374
  | .NamedColorProfile => 0x6E6D636C

/-- `impl FromStr for ProfileClass`: a sequential match on the string,
embedded as an if-chain, `Err(())` on anything unrecognized. -/
def ProfileClass.fromStr (v : String) : Except Unit ProfileClass :=
  if v = "scnr" then .ok .InputDeviceProfile
  else if v = "mntr" then .ok .DisplayDeviceProfile
  else if v = "prtr" then .ok .OutputDeviceProfile
  else if v = "link" then .ok .DeviceLinkProfile
  else if v = "spac" then .ok .ColorSpaceProfile
  else if v = "abst" then .ok .AbstractProfile
  else if v = "nmcl" then .ok .NamedColorProfile
  else .error ()

/-- The strings recognized by `ProfileClass::from_str`, in match order. -/
def ProfileClass.strings : List String :=
  ["scnr", "mntr", "prtr", "link", "spac", "abst", "nmcl"]

/-- `ColorSpace` (Table 19, `lib.rs`), a `repr(u32)` enumeration. -/
inductive ColorSpace
  | NCieXyz
  | CieLab
  | CieLuv
  | YcbCr
  | CieYxy
  | Rgb
  | Gray
  | Hsv
  | Hls
  | Cmyk
  | Cmy
  | Color2
  | Color3
  | Color4
  | Color5
  | Color6
  | Color7
  | Color8
  | Color9
  | Color10
  | Color11
  | Color12
  | Color13
  | Color14
  | Color15
deriving DecidableEq, Repr, Fintype

/-- The `repr(u32)` discriminants of `ColorSpace`. -/
def ColorSpace.toU32 : ColorSpace → Nat
  | .NCieXyz => 0x58595A20
  | .CieLab => 0x4C616220
  | .CieLuv => 0x4C757620
  | .YcbCr => 0x59436272
  | .CieYxy => 0x59787920
  | .Rgb => 0x52474220
  | .Gray => 0x47524159
  | .Hsv => 0x48535620
  | .Hls => 0x484C5320
  | .Cmyk => 0x434D594B
  | .Cmy => 0x434D5920
  | .Color2 => 0x32434C52
  | .Color3 => 0x33434C52
  | .Color4 => 0x34434C52
  | .Color5 => 0x35434C52
  | .Color6 => 0x36434C52
  | .Color7 => 0x37434C52
  | .Color8 => 0x38434C52
  | .Color9 => 0x39434C52
  | .Color10 => 0x41434C52
  | .Color11 => 0x42434C52
  | .Color12 => 0x43434C52
  | .Color13 => 0x44434C52
  | .Color14 => 0x45434C52
  | .Color15 => 0x46434C52

/-- `impl FromStr for ColorSpace`. -/
def ColorSpace.fromStr (s : String) : Except Unit ColorSpace :=
  if s = "XYZ " then .ok .NCieXyz
  else if s = "Lab " then .ok .CieLab
  else if s = "Luv " then .ok .CieLuv
  else if s = "YCbr" then .ok .YcbCr
  else if s = "Yxy " then .ok .CieYxy
  else if s = "RGB " then .ok .Rgb
  else if s = "GRAY" then .ok .Gray
  else if s = "HSV " then .ok .Hsv
  else if s = "HLS " then .ok .Hls
  else if s = "CMYK" then .ok .Cmyk
  else if s = "CMY " then .ok .Cmy
  else if s = "2CLR" then .ok .Color2
  else if s = "3CLR" then .ok .Color3
  else if s = "4CLR" then .ok .Color4
  else if s = "5CLR" then .ok .Color5
  else if s = "6CLR" then .ok .Color6
  else if s = "7CLR" then .ok .Color7
  else if s = "8CLR" then .ok .Color8
  else if s = "9CLR" then .ok .Color9
  else if s = "ACLR" then .ok .Color10
  else if s = "BCLR" then .ok .Color11
  else if s = "CCLR" then .ok .Color12
  else if s = "DCLR" then .ok .Color13
  else if s = "ECLR" then .ok .Color14
  else if s = "FCLR" then .ok .Color15
  else .error ()

/-- The strings recognized by `ColorSpace::from_str`, in match order. -/
def ColorSpace.strings : List String :=
  ["XYZ ", "Lab ", "Luv ", "YCbr", "Yxy ", "RGB ", "GRAY", "HSV ", "HLS ",
   "CMYK", "CMY ", "2CLR", "3CLR", "4CLR", "5CLR", "6CLR", "7CLR", "8CLR",
   "9CLR", "ACLR", "BCLR", "CCLR", "DCLR", "ECLR", "FCLR"]

/-- `impl_enum!` invocation for `ColorimetricIntentImageStateTag`
(Table 26, `tags/mod.rs`): variants with their `repr(u32)` hex codes
and their `from_str` strings as listed in the source. -/
inductive ColorimetricIntentImageStateTag
  | SceneColorimetryEstimates
  | SceneAppearanceEstimates
  | FocalPlaneColorimetryEstimates
  | ReflectionHardcopyOriginalColorimetry
  | ReflectionPrintOutputColorimetry
deriving DecidableEq, Repr, Fintype

def ColorimetricIntentImageStateTag.toU32 :
    ColorimetricIntentImageStateTag → Nat
  | .SceneColorimetryEstimates => 0x73636565
  | .SceneAppearanceEstimates => 0x73617065
  | .FocalPlaneColorimetryEstimates => 0x66706565
  | .ReflectionHardcopyOriginalColorimetry => 0x72686F63
  | .ReflectionPrintOutputColorimetry => 0x7269706F

def ColorimetricIntentImageStateTag.fromStr (s : String) :
    Except Unit ColorimetricIntentImageStateTag :=
  if s = "scene" then .ok .SceneColorimetryEstimates
  else if s = "sape" then .ok .SceneAppearanceEstimates
  else if s = "fpce" then .ok .FocalPlaneColorimetryEstimates
  else if s = "rhoc" then .ok .ReflectionHardcopyOriginalColorimetry
  else if s = "rpoc" then .ok .ReflectionPrintOutputColorimetry
  else .error ()

/-- `impl_enum!` invocation for `TechnologySignature`
(Table 29, `tags/mod.rs`). -/
inductive TechnologySignature
  | FilmScanner
  | DigitalCamera
  | ReflectiveScanner
  | InkJetPrinter
  | ThermalWaxPrinter
  | ElectrophotographicPrinter
  | ElectrostaticPrinter
  | DyeSublimationPrinter
  | PhotographicPaperPrinter
  | FilmWriter
  | VideoMonitor
  | VideoCamera
  | ProjectionTelevision
  | CRTDisplay
  | PMDisplay
  | AMDisplay
  | OLEDDisplay
  | PhotoCD
  | PhotoImageSetter
  | Gravure
  | OffsetLithography
  | SilkScreen
  | Flexography
  | MotionPictureFilmScanner
  | MotionPictureFilmRecorder
  | DigitalMotionPictureCamera
  | DigitalCinemaProjector
deriving DecidableEq, Repr, Fintype

def TechnologySignature.toU32 : TechnologySignature → Nat
  | .FilmScanner => 0x6673636E
  | .DigitalCamera => 0x6463616D
  | .ReflectiveScanner => 0x7273636E
  | .InkJetPrinter => 0x696A6574
  | .ThermalWaxPrinter => 0x74776178
  | .ElectrophotographicPrinter => 0x6570686F
  | .ElectrostaticPrinter => 0x65737461
  | .DyeSublimationPrinter => 0x64737562
  | .PhotographicPaperPrinter => 0x70687072
  | .FilmWriter => 0x6670726E
  | .VideoMonitor => 0x7669646D
  | .VideoCamera => 0x76696463
  | .ProjectionTelevision => 0x706A7476
  | .CRTDisplay => 0x43525420
  | .PMDisplay => 0x504D4420
  | .AMDisplay => 0x414D4420
  | .OLEDDisplay => 0x4F4C4544
  | .PhotoCD => 0x4B504344
  | .PhotoImageSetter => 0x696D6773
  | .Gravure => 0x67726176
  | .OffsetLithography => 0x6F666673
  | .SilkScreen => 0x73696C6B
  | .Flexography => 0x666C6578
  | .MotionPictureFilmScanner => 0x6D706673
  | .MotionPictureFilmRecorder => 0x6D706672
  | .DigitalMotionPictureCamera => 0x646D7063
  | .DigitalCinemaProjector => 0x64636D70

def TechnologySignature.fromStr (s : String) :
    Except Unit TechnologySignature :=
  if s = "fscn" then .ok .FilmScanner
  else if s = "dcam" then .ok .DigitalCamera
  else if s = "rscn" then .ok .ReflectiveScanner
  else if s = "ijet" then .ok .InkJetPrinter
  else if s = "twax" then .ok .ThermalWaxPrinter
  else if s = "epho" then .ok .ElectrophotographicPrinter
  else if s = "esta" then .ok .ElectrostaticPrinter
  else if s = "dsub" then .ok .DyeSublimationPrinter
  else if s = "rpho" then .ok .PhotographicPaperPrinter
  else if s = "fprn" then .ok .FilmWriter
  else if s = "vidm" then .ok .VideoMonitor
  else if s = "vidc" then .ok .VideoCamera
  else if s = "pjtv" then .ok .ProjectionTelevision
  else if s = "CRT " then .ok .CRTDisplay
  else if s = "PMD " then .ok .PMDisplay
  else if s = "AMD " then .ok .AMDisplay
  else if s = "OLED" then .ok .OLEDDisplay
  else if s = "KPCD" then .ok .PhotoCD
  else if s = "imgs" then .ok .PhotoImageSetter
  else if s = "grav" then .ok .Gravure
  else if s = "offs" then .ok .OffsetLithography
  else if s = "silk" then .ok .SilkScreen
  else if s = "flex" then .ok .Flexography
  else if s = "mpfs" then .ok .MotionPictureFilmScanner
  else if s = "mpfr" then .ok .MotionPictureFilmRecorder
  else if s = "dmpc" then .ok .DigitalMotionPictureCamera
  else if s = "dcmp" then .ok .DigitalCinemaProjector
  else .error ()

/-- `impl_enum!` invocation for `CurveMeasurement`
(Table 75, `tags/mod.rs`). -/
inductive CurveMeasurement
  | StatusA
  | StatusE
  | StatusI
  | StatusT
  | StatusM
  | DinEPolarFilter
  | DinENoPolarFilter
  | DinIPolarFilter
  | DinINoPolarFilter
deriving DecidableEq, Repr, Fintype

def CurveMeasurement.toU32 : CurveMeasurement → Nat
  | .StatusA => 0x53746141
  | .StatusE => 0x53746145
  | .StatusI => 0x53746149
  | .StatusT => 0x53746154
  | .StatusM => 0x5374614D
  | .DinEPolarFilter => 0x444E2020
  | .DinENoPolarFilter => 0x444E2050
  | .DinIPolarFilter => 0x444E4E20
  | .DinINoPolarFilter => 0x444E4E50

def CurveMeasurement.fromStr (s : String) : Except Unit CurveMeasurement :=
  if s = "StaA" then .ok .StatusA
  else if s = "StaE" then .ok .StatusE
  else if s = "StaI" then .ok .StatusI
  else if s = "StaT" then .ok .StatusT
  else if s = "StaM" then .ok .StatusM
  else if s = "Dn  " then .ok .DinEPolarFilter
  else if s = "Dn P" then .ok .DinENoPolarFilter
  else if s = "DNN " then .ok .DinIPolarFilter
  else if s = "DNNP" then .ok .DinINoPolarFilter
  else .error ()

/-- `ColorantOrder` (Table 33, `tags/mod.rs`): all five fields are plain
struct fields; the source has no constructor for this type and nothing
ties `colorants_count` to `colorants.len()`. -/
structure ColorantOrder where
  type_signature : Nat
  reserved_1 : Nat
  colorants_count : Nat
  colorant_num_fp : Nat
  colorants : List Nat
deriving DecidableEq, Repr

/-- `SampledCurveSegment` (Table 61, `tags/mod.rs`); the `f32` curve
entries are embedded as their raw 32-bit patterns. -/
structure SampledCurveSegment where
  type_signature : Nat
  reserved_1 : Nat
  count_entries : Nat
  curve_entries : List Nat
deriving DecidableEq, Repr

/-- `S15Fixed16Array` (`impl_array!`, Table 76, `tags/arrays.rs`). -/
structure S15Fixed16Array where
  type_signature : Nat
  reserved_1 : Nat
  values : List S15Fixed16
deriving DecidableEq, Repr

def S15Fixed16Array.new (values : List S15Fixed16) : S15Fixed16Array :=
  ⟨0x73663332, 0, values⟩

def S15Fixed16Array.fromVec (value : List S15Fixed16) : S15Fixed16Array :=
  S15Fixed16Array.new value

def S15Fixed16Array.defaultValue : S15Fixed16Array := S15Fixed16Array.new []

/-- `U16Fixed16Array` (`impl_array!`, Table 79). -/
structure U16Fixed16Array where
  type_signature : Nat
  reserved_1 : Nat
  values : List U16Fixed16
deriving DecidableEq, Repr

def U16Fixed16Array.new (values : List U16Fixed16) : U16Fixed16Array :=
  ⟨0x75663332, 0, values⟩

def U16Fixed16Array.fromVec (value : List U16Fixed16) : U16Fixed16Array :=
  U16Fixed16Array.new value

def U16Fixed16Array.defaultValue : U16Fixed16Array := U16Fixed16Array.new []

/-- `U16Array` (`impl_array!`, Table 80), elements are `u16` words. -/
structure U16Array where
  type_signature : Nat
  reserved_1 : Nat
  values : List Nat
deriving DecidableEq, Repr

def U16Array.new (values : List Nat) : U16Array := ⟨0x75693136, 0, values⟩

def U16Array.fromVec (value : List Nat) : U16Array := U16Array.new value

def U16Array.defaultValue : U16Array := U16Array.new []

/-- `U32Array` (`impl_array!`, Table 81), elements are `u32` words. -/
structure U32Array where
  type_signature : Nat
  reserved_1 : Nat
  values : List Nat
deriving DecidableEq, Repr

def U32Array.new (values : List Nat) : U32Array := ⟨0x75693332, 0, values⟩

def U32Array.fromVec (value : List Nat) : U32Array := U32Array.new value

def U32Array.defaultValue : U32Array := U32Array.new []

/-- `U64Array` (`impl_array!`, Table 82); its element type in the source
is `u32`, embedded faithfully as 32-bit words. -/
structure U64Array where
  type_signature : Nat
  reserved_1 : Nat
  values : List Nat
deriving DecidableEq, Repr

def U64Array.new (values : List Nat) : U64Array := ⟨0x75693634, 0, values⟩

def U64Array.fromVec (value : List Nat) : U64Array := U64Array.new value

def U64Array.defaultValue : U64Array := U64Array.new []

/-- `U8Array` (`impl_array!`, Table 83), elements are `u8` bytes. -/
structure U8Array where
  type_signature : Nat
  reserved_1 : Nat
  values : List Nat
deriving DecidableEq, Repr

def U8Array.new (values : List Nat) : U8Array := ⟨0x75693038, 0, values⟩

def U8Array.fromVec (value : List Nat) : U8Array := U8Array.new value

def U8Array.defaultValue : U8Array := U8Array.new []

/-- Modelled from the spec: the error taxonomy of the codec contract; the
container and `IccProfileReader` encode/decode logic are stubs with no
implementation in the source. -/
inductive DecodeError
  | TruncatedRecord
  | InvalidOffset
  | SizeMismatch
  | UnrecognizedSignature
deriving DecidableEq, Repr

/-- Big-endian byte serialization of a 32-bit word. -/
def be32 (n : Nat) : List Nat :=
  [n / 2 ^ 24 % 256, n / 2 ^ 16 % 256, n / 2 ^ 8 % 256, n % 256]

/-- Big-endian byte serialization of a 16-bit word. -/
def be16 (n : Nat) : List Nat := [n / 2 ^ 8 % 256, n % 256]

/-- Reads a big-endian 32-bit word, failing on a short buffer. -/
def readU32 : List Nat → Except DecodeError (Nat × List Nat)
  | b0 :: b1 :: b2 :: b3 :: rest =>
      .ok (((b0 * 256 + b1) * 256 + b2) * 256 + b3, rest)
  | _ => .error .TruncatedRecord

/-- Reads one byte, failing on a short buffer. -/
def readU8 : List Nat → Except DecodeError (Nat × List Nat)
  | b :: rest => .ok (b, rest)
  | [] => .error .TruncatedRecord

/-- Reads exactly `n` bytes, failing on a short buffer (never reads out
of bounds, never infers a shorter length). -/
def readBytes : Nat → List Nat → Except DecodeError (List Nat × List Nat)
  | 0, bs => .ok ([], bs)
  | _ + 1, [] => .error .TruncatedRecord
  | n + 1, b :: bs =>
      match readBytes n bs with
      | .ok (xs, rest) => .ok (b :: xs, rest)
      | .error e => .error e

/-- Reads big-endian 16-bit words until the buffer ends, failing on an
odd trailing byte. -/
def readU16s : List Nat → Except DecodeError (List Nat)
  | [] => .ok []
  | b0 :: b1 :: rest =>
      match readU16s rest with
      | .ok vs => .ok ((b0 * 256 + b1) :: vs)
      | .error e => .error e
  | [_] => .error .TruncatedRecord

/-- Modelled from the spec: the encoder for `ColorantOrder` under the
byte-level contract (4-byte type signature, 4-byte reserved field, then
the payload; the written count field is computed from the actual sequence
length at encode time, big-endian multi-byte integers). -/
def encodeColorantOrder (r : ColorantOrder) : List Nat :=
  be32 r.type_signature ++ be32 r.reserved_1 ++ be32 r.colorants.length ++
    [r.colorant_num_fp] ++ r.colorants

/-- Modelled from the spec: the decoder for `ColorantOrder`; reads the
declared count field first, then exactly that many colorant bytes,
failing with `TruncatedRecord` on a short buffer. -/
def decodeColorantOrder (bytes : List Nat) :
    Except DecodeError ColorantOrder :=
  match readU32 bytes with
  | .error e => .error e
  | .ok (sig, bytes) =>
    match readU32 bytes with
    | .error e => .error e
    | .ok (rsv, bytes) =>
      match readU32 bytes with
      | .error e => .error e
      | .ok (cnt, bytes) =>
        match readU8 bytes with
        | .error e => .error e
        | .ok (fp, bytes) =>
          match readBytes cnt bytes with
          | .error e => .error e
          | .ok (cols, _) => .ok ⟨sig, rsv, cnt, fp, cols⟩

/-- Modelled from the spec: the encoder for `U16Array` (type signature,
reserved field, then the 16-bit values big-endian; the element count is
implied by the record length). -/
def encodeU16Array (a : U16Array) : List Nat :=
  be32 a.type_signature ++ be32 a.reserved_1 ++ (a.values.map be16).flatten

/-- Modelled from the spec: the decoder for `U16Array`. -/
def decodeU16Array (bytes : List Nat) : Except DecodeError U16Array :=
  match readU32 bytes with
  | .error e => .error e
  | .ok (sig, bytes) =>
    match readU32 bytes with
    | .error e => .error e
    | .ok (rsv, bytes) =>
      match readU16s bytes with
      | .error e => .error e
      | .ok vs => .ok ⟨sig, rsv, vs⟩

/-- Structural validity of a `ColorantOrder`: fields within their machine
widths and the count field consistent with the sequence length. -/
def ColorantOrder.wf (r : ColorantOrder) : Prop :=
  r.type_signature < 2 ^ 32 ∧ r.reserved_1 < 2 ^ 32 ∧
  r.colorants_count = r.colorants.length ∧ r.colorants.length < 2 ^ 32 ∧
  r.colorant_num_fp < 2 ^ 8 ∧ ∀ b ∈ r.colorants, b < 2 ^ 8

/-- Structural validity of a `U16Array`: fields within machine widths. -/
def U16Array.wf (a : U16Array) : Prop :=
  a.type_signature < 2 ^ 32 ∧ a.reserved_1 < 2 ^ 32 ∧
  ∀ v ∈ a.values, v < 2 ^ 16

/-- `impl_num_primitive!(XYZNum, [S15Fixed16; 3])`: the fixed 3-element
array is embedded as a triple. -/
structure XYZNum where
  val : S15Fixed16 × S15Fixed16 × S15Fixed16
deriving DecidableEq, Repr

def XYZNum.new (value : S15Fixed16 × S15Fixed16 × S15Fixed16) : XYZNum :=
  ⟨value⟩

def XYZNum.get (v : XYZNum) : S15Fixed16 × S15Fixed16 × S15Fixed16 := v.val

/-- `impl_num_primitive!(PositionNum, [u32; 2])`, embedded as a pair. -/
structure PositionNum where
  val : Nat × Nat
deriving DecidableEq, Repr

def PositionNum.new (value : Nat × Nat) : PositionNum := ⟨value⟩

def PositionNum.get (v : PositionNum) : Nat × Nat := v.val

/-- `Response16` (`numbers/mod.rs`): u16 slot, reserved u16, measured
`S15Fixed16` value. -/
structure Response16 where
  u16_slot : Nat
  reserved : Nat
  measurement_value : S15Fixed16
deriving DecidableEq, Repr

/-- Modelled from the spec: `Bit7Ascii` is a 7-bit ASCII unit (the source
wraps a platform-sized bit array, `bitvec::array::BitArray<[usize; 7]>`,
whose wire width is platform dependent; the spec calls it a 7-bit ASCII
element, so it is modelled as a 7-bit value carried in one byte). -/
structure Bit7Ascii where
  val : Nat
deriving DecidableEq, Repr

/-- `MeasurementFlare`: a newtype over `U16Fixed16`. -/
structure MeasurementFlare where
  val : U16Fixed16
deriving DecidableEq, Repr

/-- `StandardObserver` (`tags/mod.rs`), `repr(u32)`. -/
inductive StandardObserver
  | Unknown
  | Cie1931StdColorimetricObserver
  | Cie1964StdColorimetricObserver
deriving DecidableEq, Repr

def StandardObserver.toU32 : StandardObserver → Nat
  | .Unknown => 0x00000000
  | .Cie1931StdColorimetricObserver => 0x00000001
  | .Cie1964StdColorimetricObserver => 0x00000002

/-- Modelled from the spec: decoding a `StandardObserver` discriminant
(unknown codes are an `UnrecognizedSignature` decode error). -/
def StandardObserver.fromU32 (n : Nat) : Except DecodeError StandardObserver :=
  if n = 0x00000000 then .ok .Unknown
  else if n = 0x00000001 then .ok .Cie1931StdColorimetricObserver
  else if n = 0x00000002 then .ok .Cie1964StdColorimetricObserver
  else .error .UnrecognizedSignature

/-- `MeasurementGeometry` (`tags/mod.rs`), `repr(u32)` with default
discriminants 0, 1, 2. -/
inductive MeasurementGeometry
  | Unknown
  | Deg045
  | Deg0D
deriving DecidableEq, Repr

def MeasurementGeometry.toU32 : MeasurementGeometry → Nat
  | .Unknown => 0
  | .Deg045 => 1
  | .Deg0D => 2

/-- Modelled from the spec: decoding a `MeasurementGeometry` discriminant. -/
def MeasurementGeometry.fromU32 (n : Nat) :
    Except DecodeError MeasurementGeometry :=
  if n = 0 then .ok .Unknown
  else if n = 1 then .ok .Deg045
  else if n = 2 then .ok .Deg0D
  else .error .UnrecognizedSignature

/-- `StandardIlluminant` (`tags/mod.rs`), `repr(u32)`. -/
inductive StandardIlluminant
  | Zero
  | OneHundred
deriving DecidableEq, Repr

def StandardIlluminant.toU32 : StandardIlluminant → Nat
  | .Zero => 0x00000000
  | .OneHundred => 0x00010000

/-- Modelled from the spec: decoding a `StandardIlluminant` discriminant. -/
def StandardIlluminant.fromU32 (n : Nat) :
    Except DecodeError StandardIlluminant :=
  if n = 0x00000000 then .ok .Zero
  else if n = 0x00010000 then .ok .OneHundred
  else .error .UnrecognizedSignature

/-- `PhosphorColorant` (`tags/mod.rs`), `repr(u16)`. -/
inductive PhosphorColorant
  | Unknown
  | ItuRBt709
  | SmpteRp145
deriving DecidableEq, Repr

def PhosphorColorant.toU16 : PhosphorColorant → Nat
  | .Unknown => 0x0000
  | .ItuRBt709 => 0x0001
  | .SmpteRp145 => 0x0002

/-- Modelled from the spec: decoding a `PhosphorColorant` discriminant. -/
def PhosphorColorant.fromU16 (n : Nat) : Except DecodeError PhosphorColorant :=
  if n = 0x0000 then .ok .Unknown
  else if n = 0x0001 then .ok .ItuRBt709
  else if n = 0x0002 then .ok .SmpteRp145
  else .error .UnrecognizedSignature

/-- Modelled from the spec: decoding a `CurveMeasurement` discriminant,
the inverse of the `repr(u32)` table. -/
def CurveMeasurement.fromU32 (n : Nat) : Except DecodeError CurveMeasurement :=
  if n = 0x53746141 then .ok .StatusA
  else if n = 0x53746145 then .ok .StatusE
  else if n = 0x53746149 then .ok .StatusI
  else if n = 0x53746154 then .ok .StatusT
  else if n = 0x5374614D then .ok .StatusM
  else if n = 0x444E2020 then .ok .DinEPolarFilter
  else if n = 0x444E2050 then .ok .DinENoPolarFilter
  else if n = 0x444E4E20 then .ok .DinIPolarFilter
  else if n = 0x444E4E50 then .ok .DinINoPolarFilter
  else .error .UnrecognizedSignature

/-- Reads a big-endian 16-bit word, failing on a short buffer. -/
def readU16 : List Nat → Except DecodeError (Nat × List Nat)
  | b0 :: b1 :: rest => .ok (b0 * 256 + b1, rest)
  | _ => .error .TruncatedRecord

/-- Reads exactly `n` elements with the element reader `re`, failing on a
short buffer. -/
def readListE {α : Type} (re : List Nat → Except DecodeError (α × List Nat)) :
    Nat → List Nat → Except DecodeError (List α × List Nat)
  | 0, bs => .ok ([], bs)
  | n + 1, bs =>
      match re bs with
      | .error e => .error e
      | .ok (a, bs) =>
        match readListE re n bs with
        | .error e => .error e
        | .ok (as, rest) => .ok (a :: as, rest)

/-- Reads fixed-size (`k`-byte) elements until the buffer ends, failing
when the buffer is not a whole number of elements. -/
def readTail {α : Type} (k : Nat)
    (re : List Nat → Except DecodeError (α × List Nat)) (bs : List Nat) :
    Except DecodeError (List α) :=
  match readListE re (bs.length / k) bs with
  | .error e => .error e
  | .ok (vs, []) => .ok vs
  | .ok (_, _ :: _) => .error .TruncatedRecord

/-- Byte serialization of one `S15Fixed16` word. -/
def encS15 (v : S15Fixed16) : List Nat := be32 v.val

/-- Byte serialization of one `U16Fixed16` word. -/
def encU16F (v : U16Fixed16) : List Nat := be32 v.val

/-- Byte serialization of an `XYZNum` (three `S15Fixed16` words). -/
def encXYZ (v : XYZNum) : List Nat :=
  be32 v.val.1.val ++ be32 v.val.2.1.val ++ be32 v.val.2.2.val

/-- Byte serialization of a `PositionNum` (two u32 words). -/
def encPos (p : PositionNum) : List Nat := be32 p.val.1 ++ be32 p.val.2

/-- Byte serialization of a `Response16`. -/
def encResp (r : Response16) : List Nat :=
  be16 r.u16_slot ++ be16 r.reserved ++ be32 r.measurement_value.val

/-- Byte serialization of one `Bit7Ascii` unit. -/
def encBit7 (b : Bit7Ascii) : List Nat := [b.val]

/-- Byte serialization of one CIE xy coordinate pair. -/
def encCoordPair (c : U16Fixed16 × U16Fixed16) : List Nat :=
  be32 c.1.val ++ be32 c.2.val

/-- Reads one `S15Fixed16` word. -/
def readS15 (bs : List Nat) : Except DecodeError (S15Fixed16 × List Nat) :=
  match readU32 bs with
  | .error e => .error e
  | .ok (n, rest) => .ok (⟨n⟩, rest)

/-- Reads one `U16Fixed16` word. -/
def readU16F (bs : List Nat) : Except DecodeError (U16Fixed16 × List Nat) :=
  match readU32 bs with
  | .error e => .error e
  | .ok (n, rest) => .ok (⟨n⟩, rest)

/-- Reads one `XYZNum` (three `S15Fixed16` words). -/
def readXYZ (bs : List Nat) : Except DecodeError (XYZNum × List Nat) :=
  match readU32 bs with
  | .error e => .error e
  | .ok (a, bs) =>
    match readU32 bs with
    | .error e => .error e
    | .ok (b, bs) =>
      match readU32 bs with
      | .error e => .error e
      | .ok (c, rest) => .ok (⟨(⟨a⟩, ⟨b⟩, ⟨c⟩)⟩, rest)

/-- Reads one `PositionNum` (two u32 words). -/
def readPos (bs : List Nat) : Except DecodeError (PositionNum × List Nat) :=
  match readU32 bs with
  | .error e => .error e
  | .ok (a, bs) =>
    match readU32 bs with
    | .error e => .error e
    | .ok (b, rest) => .ok (⟨(a, b)⟩, rest)

/-- Reads one `Response16`. -/
def readResp (bs : List Nat) : Except DecodeError (Response16 × List Nat) :=
  match readU16 bs with
  | .error e => .error e
  | .ok (slot, bs) =>
    match readU16 bs with
    | .error e => .error e
    | .ok (rsv, bs) =>
      match readU32 bs with
      | .error e => .error e
      | .ok (mv, rest) => .ok (⟨slot, rsv, ⟨mv⟩⟩, rest)

/-- Reads one `Bit7Ascii` unit. -/
def readBit7 : List Nat → Except DecodeError (Bit7Ascii × List Nat)
  | b :: rest => .ok (⟨b⟩, rest)
  | [] => .error .TruncatedRecord

/-- Reads one CIE xy coordinate pair. -/
def readCoordPair (bs : List Nat) :
    Except DecodeError ((U16Fixed16 × U16Fixed16) × List Nat) :=
  match readU32 bs with
  | .error e => .error e
  | .ok (a, bs) =>
    match readU32 bs with
    | .error e => .error e
    | .ok (b, rest) => .ok ((⟨a⟩, ⟨b⟩), rest)

/-- Reads a `StandardObserver` discriminant word. -/
def readObserver (bs : List Nat) :
    Except DecodeError (StandardObserver × List Nat) :=
  match readU32 bs with
  | .error e => .error e
  | .ok (n, rest) =>
    match StandardObserver.fromU32 n with
    | .error e => .error e
    | .ok v => .ok (v, rest)

/-- Reads a `MeasurementGeometry` discriminant word. -/
def readGeometry (bs : List Nat) :
    Except DecodeError (MeasurementGeometry × List Nat) :=
  match readU32 bs with
  | .error e => .error e
  | .ok (n, rest) =>
    match MeasurementGeometry.fromU32 n with
    | .error e => .error e
    | .ok v => .ok (v, rest)

/-- Reads a `StandardIlluminant` discriminant word. -/
def readIlluminant (bs : List Nat) :
    Except DecodeError (StandardIlluminant × List Nat) :=
  match readU32 bs with
  | .error e => .error e
  | .ok (n, rest) =>
    match StandardIlluminant.fromU32 n with
    | .error e => .error e
    | .ok v => .ok (v, rest)

/-- Reads a `PhosphorColorant` discriminant half-word. -/
def readPhosphor (bs : List Nat) :
    Except DecodeError (PhosphorColorant × List Nat) :=
  match readU16 bs with
  | .error e => .error e
  | .ok (n, rest) =>
    match PhosphorColorant.fromU16 n with
    | .error e => .error e
    | .ok v => .ok (v, rest)

/-- Reads a `CurveMeasurement` discriminant word. -/
def readCurveMeasurement (bs : List Nat) :
    Except DecodeError (CurveMeasurement × List Nat) :=
  match readU32 bs with
  | .error e => .error e
  | .ok (n, rest) =>
    match CurveMeasurement.fromU32 n with
    | .error e => .error e
    | .ok v => .ok (v, rest)

/-- `Chromaticity` (Table 30, `tags/mod.rs`). -/
structure Chromaticity where
  type_signature : Nat
  reserved_1 : Nat
  device_channels : Nat
  phosphor_colorant : PhosphorColorant
  channel_1_ciexy_coord : U16Fixed16 × U16Fixed16
  channel_ciexy_coords : Option (List (U16Fixed16 × U16Fixed16))
deriving DecidableEq, Repr

/-- `Cicp` (Table 32): four u8 scalars. -/
structure Cicp where
  type_signature : Nat
  reserved_1 : Nat
  color_primaries : Nat
  transfer_characteristics : Nat
  matrix_coefficients : Nat
  video_full_range_flag : Nat
deriving DecidableEq, Repr

/-- `ColorantTable` (Table 34). -/
structure ColorantTable where
  type_signature : Nat
  reserved_1 : Nat
  colorants_count : Nat
  entries_count : Nat
  curve_values : List Nat
deriving DecidableEq, Repr

/-- `DataType` (Table 36). -/
structure DataType where
  type_signature : Nat
  reserved_1 : Nat
  data_flag : Nat
deriving DecidableEq, Repr

/-- `Lut16` (Table 40); u16 input/output tables with declared entry
counts, and a color lookup table sized by the grid and channel fields. -/
structure Lut16 where
  type_signature : Nat
  reserved_1 : Nat
  input_channels : Nat
  output_channels : Nat
  clut_grid_points : Nat
  reserved_2 : Nat
  encoded_e1p : S15Fixed16
  encoded_e2p : S15Fixed16
  encoded_e3p : S15Fixed16
  encoded_e4p : S15Fixed16
  encoded_e5p : S15Fixed16
  encoded_e6p : S15Fixed16
  encoded_e7p : S15Fixed16
  encoded_e8p : S15Fixed16
  encoded_e9p : S15Fixed16
  input_table_entries : Nat
  output_table_entries : Nat
  input_values : List Nat
  clut_values : List Nat
  output_tables : List Nat
deriving DecidableEq, Repr

/-- `Lut8` (Table 44). -/
structure Lut8 where
  type_signature : Nat
  reserved_1 : Nat
  input_channels : Nat
  output_channels : Nat
  clut_grid_points : Nat
  reserved_2 : Nat
  encoded_e1p : S15Fixed16
  encoded_e2p : S15Fixed16
  encoded_e3p : S15Fixed16
  encoded_e4p : S15Fixed16
  encoded_e5p : S15Fixed16
  encoded_e6p : S15Fixed16
  encoded_e7p : S15Fixed16
  encoded_e8p : S15Fixed16
  encoded_e9p : S15Fixed16
  input_tables : Nat
  clut_values : List Nat
  output_tables : List Nat
deriving DecidableEq, Repr

/-- `LutAToB` (Table 45): fixed fields only. -/
structure LutAToB where
  type_signature : Nat
  reserved_1 : Nat
  input_channels : Nat
  output_channels : Nat
  reserved_2 : List Nat
  offset_first_b_curve : Nat
deriving DecidableEq, Repr

/-- `LutAToBClut` (Table 46): 16 grid-point bytes, precision byte, three
reserved bytes, then the CLUT data bytes. -/
structure LutAToBClut where
  grid_points : List Nat
  precision : Nat
  reserved_1 : List Nat
  clut_data_points : List Nat
deriving DecidableEq, Repr

/-- `LutBToA` (Table 47): fixed fields only (`reserved_2` is `[u16; 2]`). -/
structure LutBToA where
  type_signature : Nat
  reserved_1 : Nat
  input_channels : Nat
  output_channels : Nat
  reserved_2 : List Nat
  offset_first_b_curve : Nat
  offset_matrix : Nat
  offset_first_m_curve : Nat
  offset_clut : Nat
  offset_first_a_curve : Nat
deriving DecidableEq, Repr

/-- `Measurement` (Table 49): fixed fields, three enumerations, an XYZ
triple and a flare value. -/
structure Measurement where
  type_signature : Nat
  reserved_1 : Nat
  std_observer : StandardObserver
  tristimulus_values : XYZNum
  measurement_geometry : MeasurementGeometry
  measurement_flare : MeasurementFlare
  standard_illuminant : StandardIlluminant
deriving DecidableEq, Repr

/-- `MultiLocalizedUnicode` (Table 54); the record payload is a u16
sequence with the declared `count_records`. -/
structure MultiLocalizedUnicode where
  type_signature : Nat
  reserved_1 : Nat
  count_records : Nat
  record_size : Nat
  record_1_lang_code : Nat
  record_1_country_code : Nat
  record_1_str_length : Nat
  record_1_str_offset : Nat
  records : List Nat
deriving DecidableEq, Repr

/-- `MultiProcessElements` (Table 55); `processing_elements` counts the
positions table. -/
structure MultiProcessElements where
  type_signature : Nat
  reserved_1 : Nat
  input_channels : Nat
  output_channels : Nat
  processing_elements : Nat
  positions_table : List PositionNum
deriving DecidableEq, Repr

/-- `GeneralElement` (Table 56): fixed fields only. -/
structure GeneralElement where
  element_signature : Nat
  reserved_1 : Nat
  input_channels : Nat
  output_channels : Nat
deriving DecidableEq, Repr

/-- `CurveSetElement` (Table 57). -/
structure CurveSetElement where
  type_signature : Nat
  reserved_1 : Nat
  input_channels : Nat
  output_channels : Nat
  curve_positions : List PositionNum
deriving DecidableEq, Repr

/-- `D1Curve` (Table 58); break points are `f32` values embedded as raw
32-bit patterns. -/
structure D1Curve where
  type_signature : Nat
  reserved_1 : Nat
  segments : Nat
  reserved_2 : Nat
  break_points : List Nat
deriving DecidableEq, Repr

/-- `FormulaCurveSegment` (Table 59); `num_params` counts the `f32`
parameters (raw 32-bit patterns). -/
structure FormulaCurveSegment where
  type_signature : Nat
  reserved_1 : Nat
  function_type : Nat
  reserved_2 : Nat
  num_params : Nat
  params : List Nat
deriving DecidableEq, Repr

/-- `MatrixElement` (Table 62); elements are `f32` raw patterns. -/
structure MatrixElement where
  type_signature : Nat
  reserved_1 : Nat
  input_channels : Nat
  output_channels : Nat
  elements : List Nat
deriving DecidableEq, Repr

/-- `ClutElement` (Table 63); data points are `f32` raw patterns. -/
structure ClutElement where
  type_signature : Nat
  reserved_1 : Nat
  input_channels : Nat
  output_channels : Nat
  grid_points : Nat
  data_points : List Nat
deriving DecidableEq, Repr

/-- `BacsElement` (Table 64): fixed fields only. -/
structure BacsElement where
  type_signature : Nat
  reserved_1 : Nat
  input_channels : Nat
  output_channels : Nat
  signature : Nat
deriving DecidableEq, Repr

/-- `EacsElement` (Table 65): fixed fields only. -/
structure EacsElement where
  type_signature : Nat
  reserved_1 : Nat
  input_channels : Nat
  output_channels : Nat
  signature : Nat
deriving DecidableEq, Repr

/-- `NamedColor2` (Table 66); `count_device_coords` counts the first
named color's device coordinates. -/
structure NamedColor2 where
  count_colors : Nat
  count_device_coords : Nat
  color_name_prefix : Bit7Ascii
  color_name_suffix : Bit7Ascii
  first_color_name_root : Bit7Ascii
  first_color_name_pcs_coords : Nat × Nat × Nat
  first_named_color_device_coords : List Nat
deriving DecidableEq, Repr

/-- `ParametricCurve` (Table 67): fixed fields only. -/
structure ParametricCurve where
  para_signature : Nat
  reserved_1 : Nat
  encoded_function : Nat
  reserved_2 : Nat
deriving DecidableEq, Repr

/-- `ProfileSequenceDesc` (Table 69): an empty placeholder record. -/
structure ProfileSequenceDesc where
deriving DecidableEq, Repr

/-- `ProfileDescriptionSignature` (Table 70): an empty placeholder
record. -/
structure ProfileDescriptionSignature where
deriving DecidableEq, Repr

/-- `ProfileSequenceIdentifier` (Table 71); `count` counts the
positions. -/
structure ProfileSequenceIdentifier where
  type_signature : Nat
  reserved_1 : Nat
  count : Nat
  positions : List PositionNum
deriving DecidableEq, Repr

/-- `ProfileIdentifier` (Table 72): an id and a nested
`MultiLocalizedUnicode` description. -/
structure ProfileIdentifier where
  id : Nat
  desc : MultiLocalizedUnicode
deriving DecidableEq, Repr

/-- `ResponseCurveSet16<const N: usize>` (Table 73); the const generic is
a type-level count of the offsets array. -/
structure ResponseCurveSet16 (N : Nat) where
  type_signature : Nat
  reserved_1 : Nat
  channels : Nat
  measurement_types : Nat
  offsets : List Nat
deriving DecidableEq, Repr

/-- `CurveStructure<const N, const P>` (Table 74). -/
structure CurveStructure (N P : Nat) where
  measurement_unit_signature : CurveMeasurement
  count_measurements : List Nat
  pcsxyz_values : List Nat
  response_arrays : List Response16
deriving DecidableEq, Repr

/-- `Signature` (Table 77). -/
structure Signature where
  type_signature : Nat
  reserved_1 : Nat
  signature : Nat
deriving DecidableEq, Repr

/-- `Text` (Table 78): a sequence of 7-bit ASCII units. -/
structure Text where
  type_signature : Nat
  reserved_1 : Nat
  text : List Bit7Ascii
deriving DecidableEq, Repr

/-- `ViewingConditions` (Table 84): two XYZ triples and a nested
`Measurement` record. -/
structure ViewingConditions where
  type_signature : Nat
  reserved_1 : Nat
  ciexyz_illuminant : XYZNum
  ciexyz_surround : XYZNum
  illuminant_type : Measurement
deriving DecidableEq, Repr

/-- `XYZType` (Table 85): a sequence of XYZ triples. -/
structure XYZType where
  type_signature : Nat
  reserved_1 : Nat
  values : List XYZNum
deriving DecidableEq, Repr

/-- Byte serialization of one u8 element. -/
def encU8 (b : Nat) : List Nat := [b]

/-- Modelled from the spec: codec for `SampledCurveSegment`
(count-prefixed `f32` entries, count computed at encode time). -/
def encodeSampledCurveSegment (r : SampledCurveSegment) : List Nat :=
  be32 r.type_signature ++ be32 r.reserved_1 ++
    be32 r.curve_entries.length ++ (r.curve_entries.map be32).flatten

def decodeSampledCurveSegment (bs : List Nat) :
    Except DecodeError (SampledCurveSegment × List Nat) :=
  match readU32 bs with
  | .error e => .error e
  | .ok (sig, bs) =>
    match readU32 bs with
    | .error e => .error e
    | .ok (rsv, bs) =>
      match readU32 bs with
      | .error e => .error e
      | .ok (cnt, bs) =>
        match readListE readU32 cnt bs with
        | .error e => .error e
        | .ok (entries, rest) => .ok (⟨sig, rsv, cnt, entries⟩, rest)

def SampledCurveSegment.wf (r : SampledCurveSegment) : Prop :=
  r.type_signature < 2 ^ 32 ∧ r.reserved_1 < 2 ^ 32 ∧
  r.count_entries = r.curve_entries.length ∧
  r.curve_entries.length < 2 ^ 32 ∧ ∀ v ∈ r.curve_entries, v < 2 ^ 32

/-- Modelled from the spec: codec for `S15Fixed16Array` (the element
count is implied by the record length). -/
def encodeS15Fixed16Array (a : S15Fixed16Array) : List Nat :=
  be32 a.type_signature ++ be32 a.reserved_1 ++ (a.values.map encS15).flatten

def decodeS15Fixed16Array (bs : List Nat) :
    Except DecodeError S15Fixed16Array :=
  match readU32 bs with
  | .error e => .error e
  | .ok (sig, bs) =>
    match readU32 bs with
    | .error e => .error e
    | .ok (rsv, bs) =>
      match readTail 4 readS15 bs with
      | .error e => .error e
      | .ok vs => .ok ⟨sig, rsv, vs⟩

def S15Fixed16Array.wf (a : S15Fixed16Array) : Prop :=
  a.type_signature < 2 ^ 32 ∧ a.reserved_1 < 2 ^ 32 ∧
  ∀ v ∈ a.values, v.val < 2 ^ 32

/-- Modelled from the spec: codec for `U16Fixed16Array`. -/
def encodeU16Fixed16Array (a : U16Fixed16Array) : List Nat :=
  be32 a.type_signature ++ be32 a.reserved_1 ++ (a.values.map encU16F).flatten

def decodeU16Fixed16Array (bs : List Nat) :
    Except DecodeError U16Fixed16Array :=
  match readU32 bs with
  | .error e => .error e
  | .ok (sig, bs) =>
    match readU32 bs with
    | .error e => .error e
    | .ok (rsv, bs) =>
      match readTail 4 readU16F bs with
      | .error e => .error e
      | .ok vs => .ok ⟨sig, rsv, vs⟩

def U16Fixed16Array.wf (a : U16Fixed16Array) : Prop :=
  a.type_signature < 2 ^ 32 ∧ a.reserved_1 < 2 ^ 32 ∧
  ∀ v ∈ a.values, v.val < 2 ^ 32

/-- Modelled from the spec: codec for `U32Array`. -/
def encodeU32Array (a : U32Array) : List Nat :=
  be32 a.type_signature ++ be32 a.reserved_1 ++ (a.values.map be32).flatten

def decodeU32Array (bs : List Nat) : Except DecodeError U32Array :=
  match readU32 bs with
  | .error e => .error e
  | .ok (sig, bs) =>
    match readU32 bs with
    | .error e => .error e
    | .ok (rsv, bs) =>
      match readTail 4 readU32 bs with
      | .error e => .error e
      | .ok vs => .ok ⟨sig, rsv, vs⟩

def U32Array.wf (a : U32Array) : Prop :=
  a.type_signature < 2 ^ 32 ∧ a.reserved_1 < 2 ^ 32 ∧
  ∀ v ∈ a.values, v < 2 ^ 32

/-- Modelled from the spec: codec for `U64Array` (its element type in
the source is `u32`, so elements are serialized as 32-bit words). -/
def encodeU64Array (a : U64Array) : List Nat :=
  be32 a.type_signature ++ be32 a.reserved_1 ++ (a.values.map be32).flatten

def decodeU64Array (bs : List Nat) : Except DecodeError U64Array :=
  match readU32 bs with
  | .error e => .error e
  | .ok (sig, bs) =>
    match readU32 bs with
    | .error e => .error e
    | .ok (rsv, bs) =>
      match readTail 4 readU32 bs with
      | .error e => .error e
      | .ok vs => .ok ⟨sig, rsv, vs⟩

def U64Array.wf (a : U64Array) : Prop :=
  a.type_signature < 2 ^ 32 ∧ a.reserved_1 < 2 ^ 32 ∧
  ∀ v ∈ a.values, v < 2 ^ 32

/-- Modelled from the spec: codec for `U8Array`. -/
def encodeU8Array (a : U8Array) : List Nat :=
  be32 a.type_signature ++ be32 a.reserved_1 ++ (a.values.map encU8).flatten

def decodeU8Array (bs : List Nat) : Except DecodeError U8Array :=
  match readU32 bs with
  | .error e => .error e
  | .ok (sig, bs) =>
    match readU32 bs with
    | .error e => .error e
    | .ok (rsv, bs) =>
      match readTail 1 readU8 bs with
      | .error e => .error e
      | .ok vs => .ok ⟨sig, rsv, vs⟩

def U8Array.wf (a : U8Array) : Prop :=
  a.type_signature < 2 ^ 32 ∧ a.reserved_1 < 2 ^ 32 ∧
  ∀ v ∈ a.values, v < 2 ^ 8

/-- Modelled from the spec: codec for `Cicp` (fixed fields only). -/
def encodeCicp (r : Cicp) : List Nat :=
  be32 r.type_signature ++ be32 r.reserved_1 ++ [r.color_primaries] ++
    [r.transfer_characteristics] ++ [r.matrix_coefficients] ++
    [r.video_full_range_flag]

def decodeCicp (bs : List Nat) : Except DecodeError (Cicp × List Nat) :=
  match readU32 bs with
  | .error e => .error e
  | .ok (sig, bs) =>
    match readU32 bs with
    | .error e => .error e
    | .ok (rsv, bs) =>
      match readU8 bs with
      | .error e => .error e
      | .ok (cp, bs) =>
        match readU8 bs with
        | .error e => .error e
        | .ok (tc, bs) =>
          match readU8 bs with
          | .error e => .error e
          | .ok (mc, bs) =>
            match readU8 bs with
            | .error e => .error e
            | .ok (vf, rest) => .ok (⟨sig, rsv, cp, tc, mc, vf⟩, rest)

def Cicp.wf (r : Cicp) : Prop :=
  r.type_signature < 2 ^ 32 ∧ r.reserved_1 < 2 ^ 32 ∧
  r.color_primaries < 2 ^ 8 ∧ r.transfer_characteristics < 2 ^ 8 ∧
  r.matrix_coefficients < 2 ^ 8 ∧ r.video_full_range_flag < 2 ^ 8

/-- Modelled from the spec: codec for `ColorantTable`
(`entries_count` is the count of the curve values, computed at encode
time; `colorants_count` is a plain scalar). -/
def encodeColorantTable (r : ColorantTable) : List Nat :=
  be32 r.type_signature ++ be32 r.reserved_1 ++ be32 r.colorants_count ++
    be32 r.curve_values.length ++ (r.curve_values.map be16).flatten

def decodeColorantTable (bs : List Nat) :
    Except DecodeError (ColorantTable × List Nat) :=
  match readU32 bs with
  | .error e => .error e
  | .ok (sig, bs) =>
    match readU32 bs with
    | .error e => .error e
    | .ok (rsv, bs) =>
      match readU32 bs with
      | .error e => .error e
      | .ok (cc, bs) =>
        match readU32 bs with
        | .error e => .error e
        | .ok (cnt, bs) =>
          match readListE readU16 cnt bs with
          | .error e => .error e
          | .ok (vs, rest) => .ok (⟨sig, rsv, cc, cnt, vs⟩, rest)

def ColorantTable.wf (r : ColorantTable) : Prop :=
  r.type_signature < 2 ^ 32 ∧ r.reserved_1 < 2 ^ 32 ∧
  r.colorants_count < 2 ^ 32 ∧ r.entries_count = r.curve_values.length ∧
  r.curve_values.length < 2 ^ 32 ∧ ∀ v ∈ r.curve_values, v < 2 ^ 16

/-- Modelled from the spec: codec for `DataType` (fixed fields only). -/
def encodeDataType (r : DataType) : List Nat :=
  be32 r.type_signature ++ be32 r.reserved_1 ++ be32 r.data_flag

def decodeDataType (bs : List Nat) :
    Except DecodeError (DataType × List Nat) :=
  match readU32 bs with
  | .error e => .error e
  | .ok (sig, bs) =>
    match readU32 bs with
    | .error e => .error e
    | .ok (rsv, bs) =>
      match readU32 bs with
      | .error e => .error e
      | .ok (df, rest) => .ok (⟨sig, rsv, df⟩, rest)

def DataType.wf (r : DataType) : Prop :=
  r.type_signature < 2 ^ 32 ∧ r.reserved_1 < 2 ^ 32 ∧ r.data_flag < 2 ^ 32

/-- Modelled from the spec: codec for `LutAToB` (fixed fields; the
2-byte reserved region is carried as bytes). -/
def encodeLutAToB (r : LutAToB) : List Nat :=
  be32 r.type_signature ++ be32 r.reserved_1 ++ [r.input_channels] ++
    [r.output_channels] ++ r.reserved_2 ++ be32 r.offset_first_b_curve

def decodeLutAToB (bs : List Nat) :
    Except DecodeError (LutAToB × List Nat) :=
  match readU32 bs with
  | .error e => .error e
  | .ok (sig, bs) =>
    match readU32 bs with
    | .error e => .error e
    | .ok (rsv, bs) =>
      match readU8 bs with
      | .error e => .error e
      | .ok (ic, bs) =>
        match readU8 bs with
        | .error e => .error e
        | .ok (oc, bs) =>
          match readBytes 2 bs with
          | .error e => .error e
          | .ok (r2, bs) =>
            match readU32 bs with
            | .error e => .error e
            | .ok (ofb, rest) => .ok (⟨sig, rsv, ic, oc, r2, ofb⟩, rest)

def LutAToB.wf (r : LutAToB) : Prop :=
  r.type_signature < 2 ^ 32 ∧ r.reserved_1 < 2 ^ 32 ∧
  r.input_channels < 2 ^ 8 ∧ r.output_channels < 2 ^ 8 ∧
  r.reserved_2.length = 2 ∧ (∀ b ∈ r.reserved_2, b < 2 ^ 8) ∧
  r.offset_first_b_curve < 2 ^ 32

/-- Modelled from the spec: codec for `LutAToBClut` (16 grid bytes,
precision, 3 reserved bytes, then the CLUT data as the record tail). -/
def encodeLutAToBClut (r : LutAToBClut) : List Nat :=
  r.grid_points ++ [r.precision] ++ r.reserved_1 ++ r.clut_data_points

def decodeLutAToBClut (bs : List Nat) : Except DecodeError LutAToBClut :=
  match readBytes 16 bs with
  | .error e => .error e
  | .ok (gp, bs) =>
    match readU8 bs with
    | .error e => .error e
    | .ok (prec, bs) =>
      match readBytes 3 bs with
      | .error e => .error e
      | .ok (rsv, rest) => .ok ⟨gp, prec, rsv, rest⟩

def LutAToBClut.wf (r : LutAToBClut) : Prop :=
  r.grid_points.length = 16 ∧ (∀ b ∈ r.grid_points, b < 2 ^ 8) ∧
  r.precision < 2 ^ 8 ∧ r.reserved_1.length = 3 ∧
  (∀ b ∈ r.reserved_1, b < 2 ^ 8) ∧ ∀ b ∈ r.clut_data_points, b < 2 ^ 8

/-- Modelled from the spec: codec for `LutBToA` (fixed fields; the
reserved region is two u16 words). -/
def encodeLutBToA (r : LutBToA) : List Nat :=
  be32 r.type_signature ++ be32 r.reserved_1 ++ [r.input_channels] ++
    [r.output_channels] ++ (r.reserved_2.map be16).flatten ++
    be32 r.offset_first_b_curve ++ be32 r.offset_matrix ++
    be32 r.offset_first_m_curve ++ be32 r.offset_clut ++
    be32 r.offset_first_a_curve

def decodeLutBToA (bs : List Nat) :
    Except DecodeError (LutBToA × List Nat) :=
  match readU32 bs with
  | .error e => .error e
  | .ok (sig, bs) =>
    match readU32 bs with
    | .error e => .error e
    | .ok (rsv, bs) =>
      match readU8 bs with
      | .error e => .error e
      | .ok (ic, bs) =>
        match readU8 bs with
        | .error e => .error e
        | .ok (oc, bs) =>
          match readListE readU16 2 bs with
          | .error e => .error e
          | .ok (r2, bs) =>
            match readU32 bs with
            | .error e => .error e
            | .ok (o1, bs) =>
              match readU32 bs with
              | .error e => .error e
              | .ok (o2, bs) =>
                match readU32 bs with
                | .error e => .error e
                | .ok (o3, bs) =>
                  match readU32 bs with
                  | .error e => .error e
                  | .ok (o4, bs) =>
                    match readU32 bs with
                    | .error e => .error e
                    | .ok (o5, rest) =>
                        .ok (⟨sig, rsv, ic, oc, r2, o1, o2, o3, o4, o5⟩, rest)

def LutBToA.wf (r : LutBToA) : Prop :=
  r.type_signature < 2 ^ 32 ∧ r.reserved_1 < 2 ^ 32 ∧
  r.input_channels < 2 ^ 8 ∧ r.output_channels < 2 ^ 8 ∧
  r.reserved_2.length = 2 ∧ (∀ w ∈ r.reserved_2, w < 2 ^ 16) ∧
  r.offset_first_b_curve < 2 ^ 32 ∧ r.offset_matrix < 2 ^ 32 ∧
  r.offset_first_m_curve < 2 ^ 32 ∧ r.offset_clut < 2 ^ 32 ∧
  r.offset_first_a_curve < 2 ^ 32

/-- Modelled from the spec: codec for `Measurement` (fixed fields; the
three enumerations decode their discriminant words, unknown codes being
`UnrecognizedSignature` errors). -/
def encodeMeasurement (r : Measurement) : List Nat :=
  be32 r.type_signature ++ be32 r.reserved_1 ++
    be32 r.std_observer.toU32 ++ encXYZ r.tristimulus_values ++
    be32 r.measurement_geometry.toU32 ++ be32 r.measurement_flare.val.val ++
    be32 r.standard_illuminant.toU32

def decodeMeasurement (bs : List Nat) :
    Except DecodeError (Measurement × List Nat) :=
  match readU32 bs with
  | .error e => .error e
  | .ok (sig, bs) =>
    match readU32 bs with
    | .error e => .error e
    | .ok (rsv, bs) =>
      match readObserver bs with
      | .error e => .error e
      | .ok (obs, bs) =>
        match readXYZ bs with
        | .error e => .error e
        | .ok (xyz, bs) =>
          match readGeometry bs with
          | .error e => .error e
          | .ok (geo, bs) =>
            match readU32 bs with
            | .error e => .error e
            | .ok (fl, bs) =>
              match readIlluminant bs with
              | .error e => .error e
              | .ok (il, rest) =>
                  .ok (⟨sig, rsv, obs, xyz, geo, ⟨⟨fl⟩⟩, il⟩, rest)

def Measurement.wf (r : Measurement) : Prop :=
  r.type_signature < 2 ^ 32 ∧ r.reserved_1 < 2 ^ 32 ∧
  r.tristimulus_values.val.1.val < 2 ^ 32 ∧
  r.tristimulus_values.val.2.1.val < 2 ^ 32 ∧
  r.tristimulus_values.val.2.2.val < 2 ^ 32 ∧
  r.measurement_flare.val.val < 2 ^ 32

/-- Modelled from the spec: codec for `MultiLocalizedUnicode`
(the `count_records` field counts the u16 record payload and is computed
at encode time). -/
def encodeMultiLocalizedUnicode (r : MultiLocalizedUnicode) : List Nat :=
  be32 r.type_signature ++ be32 r.reserved_1 ++ be32 r.records.length ++
    be32 r.record_size ++ be16 r.record_1_lang_code ++
    be16 r.record_1_country_code ++ be32 r.record_1_str_length ++
    be32 r.record_1_str_offset ++ (r.records.map be16).flatten

def decodeMultiLocalizedUnicode (bs : List Nat) :
    Except DecodeError (MultiLocalizedUnicode × List Nat) :=
  match readU32 bs with
  | .error e => .error e
  | .ok (sig, bs) =>
    match readU32 bs with
    | .error e => .error e
    | .ok (rsv, bs) =>
      match readU32 bs with
      | .error e => .error e
      | .ok (cnt, bs) =>
        match readU32 bs with
        | .error e => .error e
        | .ok (rs, bs) =>
          match readU16 bs with
          | .error e => .error e
          | .ok (lang, bs) =>
            match readU16 bs with
            | .error e => .error e
            | .ok (country, bs) =>
              match readU32 bs with
              | .error e => .error e
              | .ok (slen, bs) =>
                match readU32 bs with
                | .error e => .error e
                | .ok (soff, bs) =>
                  match readListE readU16 cnt bs with
                  | .error e => .error e
                  | .ok (recs, rest) =>
                      .ok (⟨sig, rsv, cnt, rs, lang, country, slen, soff,
                        recs⟩, rest)

def MultiLocalizedUnicode.wf (r : MultiLocalizedUnicode) : Prop :=
  r.type_signature < 2 ^ 32 ∧ r.reserved_1 < 2 ^ 32 ∧
  r.count_records = r.records.length ∧ r.records.length < 2 ^ 32 ∧
  r.record_size < 2 ^ 32 ∧ r.record_1_lang_code < 2 ^ 16 ∧
  r.record_1_country_code < 2 ^ 16 ∧ r.record_1_str_length < 2 ^ 32 ∧
  r.record_1_str_offset < 2 ^ 32 ∧ ∀ v ∈ r.records, v < 2 ^ 16

/-- Modelled from the spec: codec for `MultiProcessElements`
(`processing_elements` counts the positions table). -/
def encodeMultiProcessElements (r : MultiProcessElements) : List Nat :=
  be32 r.type_signature ++ be32 r.reserved_1 ++ be16 r.input_channels ++
    be16 r.output_channels ++ be32 r.positions_table.length ++
    (r.positions_table.map encPos).flatten

def decodeMultiProcessElements (bs : List Nat) :
    Except DecodeError (MultiProcessElements × List Nat) :=
  match readU32 bs with
  | .error e => .error e
  | .ok (sig, bs) =>
    match readU32 bs with
    | .error e => .error e
    | .ok (rsv, bs) =>
      match readU16 bs with
      | .error e => .error e
      | .ok (ic, bs) =>
        match readU16 bs with
        | .error e => .error e
        | .ok (oc, bs) =>
          match readU32 bs with
          | .error e => .error e
          | .ok (cnt, bs) =>
            match readListE readPos cnt bs with
            | .error e => .error e
            | .ok (ps, rest) => .ok (⟨sig, rsv, ic, oc, cnt, ps⟩, rest)

def MultiProcessElements.wf (r : MultiProcessElements) : Prop :=
  r.type_signature < 2 ^ 32 ∧ r.reserved_1 < 2 ^ 32 ∧
  r.input_channels < 2 ^ 16 ∧ r.output_channels < 2 ^ 16 ∧
  r.processing_elements = r.positions_table.length ∧
  r.positions_table.length < 2 ^ 32 ∧
  ∀ p ∈ r.positions_table, p.val.1 < 2 ^ 32 ∧ p.val.2 < 2 ^ 32

/-- Modelled from the spec: codec for `GeneralElement` (fixed fields). -/
def encodeGeneralElement (r : GeneralElement) : List Nat :=
  be32 r.element_signature ++ be32 r.reserved_1 ++ be16 r.input_channels ++
    be16 r.output_channels

def decodeGeneralElement (bs : List Nat) :
    Except DecodeError (GeneralElement × List Nat) :=
  match readU32 bs with
  | .error e => .error e
  | .ok (sig, bs) =>
    match readU32 bs with
    | .error e => .error e
    | .ok (rsv, bs) =>
      match readU16 bs with
      | .error e => .error e
      | .ok (ic, bs) =>
        match readU16 bs with
        | .error e => .error e
        | .ok (oc, rest) => .ok (⟨sig, rsv, ic, oc⟩, rest)

def GeneralElement.wf (r : GeneralElement) : Prop :=
  r.element_signature < 2 ^ 32 ∧ r.reserved_1 < 2 ^ 32 ∧
  r.input_channels < 2 ^ 16 ∧ r.output_channels < 2 ^ 16

/-- Modelled from the spec: codec for `CurveSetElement` (the curve
positions fill the record tail). -/
def encodeCurveSetElement (r : CurveSetElement) : List Nat :=
  be32 r.type_signature ++ be32 r.reserved_1 ++ be16 r.input_channels ++
    be16 r.output_channels ++ (r.curve_positions.map encPos).flatten

def decodeCurveSetElement (bs : List Nat) :
    Except DecodeError CurveSetElement :=
  match readU32 bs with
  | .error e => .error e
  | .ok (sig, bs) =>
    match readU32 bs with
    | .error e => .error e
    | .ok (rsv, bs) =>
      match readU16 bs with
      | .error e => .error e
      | .ok (ic, bs) =>
        match readU16 bs with
        | .error e => .error e
        | .ok (oc, bs) =>
          match readTail 8 readPos bs with
          | .error e => .error e
          | .ok ps => .ok ⟨sig, rsv, ic, oc, ps⟩

def CurveSetElement.wf (r : CurveSetElement) : Prop :=
  r.type_signature < 2 ^ 32 ∧ r.reserved_1 < 2 ^ 32 ∧
  r.input_channels < 2 ^ 16 ∧ r.output_channels < 2 ^ 16 ∧
  ∀ p ∈ r.curve_positions, p.val.1 < 2 ^ 32 ∧ p.val.2 < 2 ^ 32

/-- Modelled from the spec: codec for `D1Curve` (break points fill the
record tail as `f32` raw patterns). -/
def encodeD1Curve (r : D1Curve) : List Nat :=
  be32 r.type_signature ++ be32 r.reserved_1 ++ be16 r.segments ++
    be16 r.reserved_2 ++ (r.break_points.map be32).flatten

def decodeD1Curve (bs : List Nat) : Except DecodeError D1Curve :=
  match readU32 bs with
  | .error e => .error e
  | .ok (sig, bs) =>
    match readU32 bs with
    | .error e => .error e
    | .ok (rsv, bs) =>
      match readU16 bs with
      | .error e => .error e
      | .ok (seg, bs) =>
        match readU16 bs with
        | .error e => .error e
        | .ok (r2, bs) =>
          match readTail 4 readU32 bs with
          | .error e => .error e
          | .ok bps => .ok ⟨sig, rsv, seg, r2, bps⟩

def D1Curve.wf (r : D1Curve) : Prop :=
  r.type_signature < 2 ^ 32 ∧ r.reserved_1 < 2 ^ 32 ∧
  r.segments < 2 ^ 16 ∧ r.reserved_2 < 2 ^ 16 ∧
  ∀ v ∈ r.break_points, v < 2 ^ 32

/-- Modelled from the spec: codec for `FormulaCurveSegment`
(`num_params` counts the `f32` parameters, computed at encode time). -/
def encodeFormulaCurveSegment (r : FormulaCurveSegment) : List Nat :=
  be32 r.type_signature ++ be32 r.reserved_1 ++ be16 r.function_type ++
    be16 r.reserved_2 ++ be16 r.params.length ++
    (r.params.map be32).flatten

def decodeFormulaCurveSegment (bs : List Nat) :
    Except DecodeError (FormulaCurveSegment × List Nat) :=
  match readU32 bs with
  | .error e => .error e
  | .ok (sig, bs) =>
    match readU32 bs with
    | .error e => .error e
    | .ok (rsv, bs) =>
      match readU16 bs with
      | .error e => .error e
      | .ok (ft, bs) =>
        match readU16 bs with
        | .error e => .error e
        | .ok (r2, bs) =>
          match readU16 bs with
          | .error e => .error e
          | .ok (np, bs) =>
            match readListE readU32 np bs with
            | .error e => .error e
            | .ok (ps, rest) => .ok (⟨sig, rsv, ft, r2, np, ps⟩, rest)

def FormulaCurveSegment.wf (r : FormulaCurveSegment) : Prop :=
  r.type_signature < 2 ^ 32 ∧ r.reserved_1 < 2 ^ 32 ∧
  r.function_type < 2 ^ 16 ∧ r.reserved_2 < 2 ^ 16 ∧
  r.num_params = r.params.length ∧ r.params.length < 2 ^ 16 ∧
  ∀ v ∈ r.params, v < 2 ^ 32

/-- Modelled from the spec: codec for `MatrixElement` (elements fill the
record tail as `f32` raw patterns). -/
def encodeMatrixElement (r : MatrixElement) : List Nat :=
  be32 r.type_signature ++ be32 r.reserved_1 ++ be16 r.input_channels ++
    be16 r.output_channels ++ (r.elements.map be32).flatten

def decodeMatrixElement (bs : List Nat) : Except DecodeError MatrixElement :=
  match readU32 bs with
  | .error e => .error e
  | .ok (sig, bs) =>
    match readU32 bs with
    | .error e => .error e
    | .ok (rsv, bs) =>
      match readU16 bs with
      | .error e => .error e
      | .ok (ic, bs) =>
        match readU16 bs with
        | .error e => .error e
        | .ok (oc, bs) =>
          match readTail 4 readU32 bs with
          | .error e => .error e
          | .ok es => .ok ⟨sig, rsv, ic, oc, es⟩

def MatrixElement.wf (r : MatrixElement) : Prop :=
  r.type_signature < 2 ^ 32 ∧ r.reserved_1 < 2 ^ 32 ∧
  r.input_channels < 2 ^ 16 ∧ r.output_channels < 2 ^ 16 ∧
  ∀ v ∈ r.elements, v < 2 ^ 32

/-- Modelled from the spec: codec for `ClutElement` (data points fill
the record tail as `f32` raw patterns). -/
def encodeClutElement (r : ClutElement) : List Nat :=
  be32 r.type_signature ++ be32 r.reserved_1 ++ be16 r.input_channels ++
    be16 r.output_channels ++ [r.grid_points] ++
    (r.data_points.map be32).flatten

def decodeClutElement (bs : List Nat) : Except DecodeError ClutElement :=
  match readU32 bs with
  | .error e => .error e
  | .ok (sig, bs) =>
    match readU32 bs with
    | .error e => .error e
    | .ok (rsv, bs) =>
      match readU16 bs with
      | .error e => .error e
      | .ok (ic, bs) =>
        match readU16 bs with
        | .error e => .error e
        | .ok (oc, bs) =>
          match readU8 bs with
          | .error e => .error e
          | .ok (gp, bs) =>
            match readTail 4 readU32 bs with
            | .error e => .error e
            | .ok ds => .ok ⟨sig, rsv, ic, oc, gp, ds⟩

def ClutElement.wf (r : ClutElement) : Prop :=
  r.type_signature < 2 ^ 32 ∧ r.reserved_1 < 2 ^ 32 ∧
  r.input_channels < 2 ^ 16 ∧ r.output_channels < 2 ^ 16 ∧
  r.grid_points < 2 ^ 8 ∧ ∀ v ∈ r.data_points, v < 2 ^ 32

/-- Modelled from the spec: codec for `BacsElement` (fixed fields). -/
def encodeBacsElement (r : BacsElement) : List Nat :=
  be32 r.type_signature ++ be32 r.reserved_1 ++ be16 r.input_channels ++
    be16 r.output_channels ++ be32 r.signature

def decodeBacsElement (bs : List Nat) :
    Except DecodeError (BacsElement × List Nat) :=
  match readU32 bs with
  | .error e => .error e
  | .ok (sig, bs) =>
    match readU32 bs with
    | .error e => .error e
    | .ok (rsv, bs) =>
      match readU16 bs with
      | .error e => .error e
      | .ok (ic, bs) =>
        match readU16 bs with
        | .error e => .error e
        | .ok (oc, bs) =>
          match readU32 bs with
          | .error e => .error e
          | .ok (s2, rest) => .ok (⟨sig, rsv, ic, oc, s2⟩, rest)

def BacsElement.wf (r : BacsElement) : Prop :=
  r.type_signature < 2 ^ 32 ∧ r.reserved_1 < 2 ^ 32 ∧
  r.input_channels < 2 ^ 16 ∧ r.output_channels < 2 ^ 16 ∧
  r.signature < 2 ^ 32

/-- Modelled from the spec: codec for `EacsElement` (fixed fields). -/
def encodeEacsElement (r : EacsElement) : List Nat :=
  be32 r.type_signature ++ be32 r.reserved_1 ++ be16 r.input_channels ++
    be16 r.output_channels ++ be32 r.signature

def decodeEacsElement (bs : List Nat) :
    Except DecodeError (EacsElement × List Nat) :=
  match readU32 bs with
  | .error e => .error e
  | .ok (sig, bs) =>
    match readU32 bs with
    | .error e => .error e
    | .ok (rsv, bs) =>
      match readU16 bs with
      | .error e => .error e
      | .ok (ic, bs) =>
        match readU16 bs with
        | .error e => .error e
        | .ok (oc, bs) =>
          match readU32 bs with
          | .error e => .error e
          | .ok (s2, rest) => .ok (⟨sig, rsv, ic, oc, s2⟩, rest)

def EacsElement.wf (r : EacsElement) : Prop :=
  r.type_signature < 2 ^ 32 ∧ r.reserved_1 < 2 ^ 32 ∧
  r.input_channels < 2 ^ 16 ∧ r.output_channels < 2 ^ 16 ∧
  r.signature < 2 ^ 32

/-- Modelled from the spec: codec for `NamedColor2`
(`count_device_coords` counts the first color's device coordinates and
is computed at encode time). -/
def encodeNamedColor2 (r : NamedColor2) : List Nat :=
  be32 r.count_colors ++ be32 r.first_named_color_device_coords.length ++
    encBit7 r.color_name_prefix ++ encBit7 r.color_name_suffix ++
    encBit7 r.first_color_name_root ++
    be16 r.first_color_name_pcs_coords.1 ++
    be16 r.first_color_name_pcs_coords.2.1 ++
    be16 r.first_color_name_pcs_coords.2.2 ++
    (r.first_named_color_device_coords.map be16).flatten

def decodeNamedColor2 (bs : List Nat) :
    Except DecodeError (NamedColor2 × List Nat) :=
  match readU32 bs with
  | .error e => .error e
  | .ok (cc, bs) =>
    match readU32 bs with
    | .error e => .error e
    | .ok (cdc, bs) =>
      match readBit7 bs with
      | .error e => .error e
      | .ok (pre, bs) =>
        match readBit7 bs with
        | .error e => .error e
        | .ok (suf, bs) =>
          match readBit7 bs with
          | .error e => .error e
          | .ok (root, bs) =>
            match readU16 bs with
            | .error e => .error e
            | .ok (p1, bs) =>
              match readU16 bs with
              | .error e => .error e
              | .ok (p2, bs) =>
                match readU16 bs with
                | .error e => .error e
                | .ok (p3, bs) =>
                  match readListE readU16 cdc bs with
                  | .error e => .error e
                  | .ok (dcs, rest) =>
                      .ok (⟨cc, cdc, pre, suf, root, (p1, p2, p3), dcs⟩,
                        rest)

def NamedColor2.wf (r : NamedColor2) : Prop :=
  r.count_colors < 2 ^ 32 ∧
  r.count_device_coords = r.first_named_color_device_coords.length ∧
  r.first_named_color_device_coords.length < 2 ^ 32 ∧
  r.color_name_prefix.val < 2 ^ 7 ∧ r.color_name_suffix.val < 2 ^ 7 ∧
  r.first_color_name_root.val < 2 ^ 7 ∧
  r.first_color_name_pcs_coords.1 < 2 ^ 16 ∧
  r.first_color_name_pcs_coords.2.1 < 2 ^ 16 ∧
  r.first_color_name_pcs_coords.2.2 < 2 ^ 16 ∧
  ∀ v ∈ r.first_named_color_device_coords, v < 2 ^ 16

/-- Modelled from the spec: codec for `ParametricCurve` (fixed fields;
`reserved_2` is a u32 in the source). -/
def encodeParametricCurve (r : ParametricCurve) : List Nat :=
  be32 r.para_signature ++ be32 r.reserved_1 ++ be16 r.encoded_function ++
    be32 r.reserved_2

def decodeParametricCurve (bs : List Nat) :
    Except DecodeError (ParametricCurve × List Nat) :=
  match readU32 bs with
  | .error e => .error e
  | .ok (ps, bs) =>
    match readU32 bs with
    | .error e => .error e
    | .ok (rsv, bs) =>
      match readU16 bs with
      | .error e => .error e
      | .ok (ef, bs) =>
        match readU32 bs with
        | .error e => .error e
        | .ok (r2, rest) => .ok (⟨ps, rsv, ef, r2⟩, rest)

def ParametricCurve.wf (r : ParametricCurve) : Prop :=
  r.para_signature < 2 ^ 32 ∧ r.reserved_1 < 2 ^ 32 ∧
  r.encoded_function < 2 ^ 16 ∧ r.reserved_2 < 2 ^ 32

/-- Modelled from the spec: codec for the empty placeholder
`ProfileSequenceDesc`. -/
def encodeProfileSequenceDesc (_ : ProfileSequenceDesc) : List Nat := []

def decodeProfileSequenceDesc (bs : List Nat) :
    Except DecodeError (ProfileSequenceDesc × List Nat) := .ok (⟨⟩, bs)

/-- Modelled from the spec: codec for the empty placeholder
`ProfileDescriptionSignature`. -/
def encodeProfileDescriptionSignature (_ : ProfileDescriptionSignature) :
    List Nat := []

def decodeProfileDescriptionSignature (bs : List Nat) :
    Except DecodeError (ProfileDescriptionSignature × List Nat) :=
  .ok (⟨⟩, bs)

/-- Modelled from the spec: codec for `ProfileSequenceIdentifier`
(`count` counts the positions, computed at encode time). -/
def encodeProfileSequenceIdentifier (r : ProfileSequenceIdentifier) :
    List Nat :=
  be32 r.type_signature ++ be32 r.reserved_1 ++ be32 r.positions.length ++
    (r.positions.map encPos).flatten

def decodeProfileSequenceIdentifier (bs : List Nat) :
    Except DecodeError (ProfileSequenceIdentifier × List Nat) :=
  match readU32 bs with
  | .error e => .error e
  | .ok (sig, bs) =>
    match readU32 bs with
    | .error e => .error e
    | .ok (rsv, bs) =>
      match readU32 bs with
      | .error e => .error e
      | .ok (cnt, bs) =>
        match readListE readPos cnt bs with
        | .error e => .error e
        | .ok (ps, rest) => .ok (⟨sig, rsv, cnt, ps⟩, rest)

def ProfileSequenceIdentifier.wf (r : ProfileSequenceIdentifier) : Prop :=
  r.type_signature < 2 ^ 32 ∧ r.reserved_1 < 2 ^ 32 ∧
  r.count = r.positions.length ∧ r.positions.length < 2 ^ 32 ∧
  ∀ p ∈ r.positions, p.val.1 < 2 ^ 32 ∧ p.val.2 < 2 ^ 32

/-- Modelled from the spec: codec for `ProfileIdentifier` (an id and a
nested `MultiLocalizedUnicode` record). -/
def encodeProfileIdentifier (r : ProfileIdentifier) : List Nat :=
  be16 r.id ++ encodeMultiLocalizedUnicode r.desc

def decodeProfileIdentifier (bs : List Nat) :
    Except DecodeError (ProfileIdentifier × List Nat) :=
  match readU16 bs with
  | .error e => .error e
  | .ok (id, bs) =>
    match decodeMultiLocalizedUnicode bs with
    | .error e => .error e
    | .ok (desc, rest) => .ok (⟨id, desc⟩, rest)

def ProfileIdentifier.wf (r : ProfileIdentifier) : Prop :=
  r.id < 2 ^ 16 ∧ r.desc.wf

/-- Modelled from the spec: codec for `ResponseCurveSet16<N>` (the const
generic `N` fixes the length of the offsets array). -/
def encodeResponseCurveSet16 {N : Nat} (r : ResponseCurveSet16 N) :
    List Nat :=
  be32 r.type_signature ++ be32 r.reserved_1 ++ be16 r.channels ++
    be32 r.measurement_types ++ (r.offsets.map be32).flatten

def decodeResponseCurveSet16 (N : Nat) (bs : List Nat) :
    Except DecodeError (ResponseCurveSet16 N × List Nat) :=
  match readU32 bs with
  | .error e => .error e
  | .ok (sig, bs) =>
    match readU32 bs with
    | .error e => .error e
    | .ok (rsv, bs) =>
      match readU16 bs with
      | .error e => .error e
      | .ok (ch, bs) =>
        match readU32 bs with
        | .error e => .error e
        | .ok (mt, bs) =>
          match readListE readU32 N bs with
          | .error e => .error e
          | .ok (offs, rest) => .ok (⟨sig, rsv, ch, mt, offs⟩, rest)

def ResponseCurveSet16.wf {N : Nat} (r : ResponseCurveSet16 N) : Prop :=
  r.type_signature < 2 ^ 32 ∧ r.reserved_1 < 2 ^ 32 ∧
  r.channels < 2 ^ 16 ∧ r.measurement_types < 2 ^ 32 ∧
  r.offsets.length = N ∧ ∀ v ∈ r.offsets, v < 2 ^ 32

/-- Modelled from the spec: codec for `CurveStructure<N, P>` (the const
generics fix the array lengths). -/
def encodeCurveStructure {N P : Nat} (r : CurveStructure N P) : List Nat :=
  be32 r.measurement_unit_signature.toU32 ++
    (r.count_measurements.map be32).flatten ++
    (r.pcsxyz_values.map be32).flatten ++
    (r.response_arrays.map encResp).flatten

def decodeCurveStructure (N P : Nat) (bs : List Nat) :
    Except DecodeError (CurveStructure N P × List Nat) :=
  match readCurveMeasurement bs with
  | .error e => .error e
  | .ok (mu, bs) =>
    match readListE readU32 N bs with
    | .error e => .error e
    | .ok (cm, bs) =>
      match readListE readU32 N bs with
      | .error e => .error e
      | .ok (pv, bs) =>
        match readListE readResp P bs with
        | .error e => .error e
        | .ok (ra, rest) => .ok (⟨mu, cm, pv, ra⟩, rest)

def CurveStructure.wf {N P : Nat} (r : CurveStructure N P) : Prop :=
  r.count_measurements.length = N ∧ (∀ v ∈ r.count_measurements, v < 2 ^ 32) ∧
  r.pcsxyz_values.length = N ∧ (∀ v ∈ r.pcsxyz_values, v < 2 ^ 32) ∧
  r.response_arrays.length = P ∧
  ∀ a ∈ r.response_arrays,
    a.u16_slot < 2 ^ 16 ∧ a.reserved < 2 ^ 16 ∧
    a.measurement_value.val < 2 ^ 32

/-- Modelled from the spec: codec for `Signature` (fixed fields). -/
def encodeSignature (r : Signature) : List Nat :=
  be32 r.type_signature ++ be32 r.reserved_1 ++ be32 r.signature

def decodeSignature (bs : List Nat) :
    Except DecodeError (Signature × List Nat) :=
  match readU32 bs with
  | .error e => .error e
  | .ok (sig, bs) =>
    match readU32 bs with
    | .error e => .error e
    | .ok (rsv, bs) =>
      match readU32 bs with
      | .error e => .error e
      | .ok (s2, rest) => .ok (⟨sig, rsv, s2⟩, rest)

def Signature.wf (r : Signature) : Prop :=
  r.type_signature < 2 ^ 32 ∧ r.reserved_1 < 2 ^ 32 ∧ r.signature < 2 ^ 32

/-- Modelled from the spec: codec for `Text` (the 7-bit ASCII units fill
the record tail, one byte each). -/
def encodeText (r : Text) : List Nat :=
  be32 r.type_signature ++ be32 r.reserved_1 ++ (r.text.map encBit7).flatten

def decodeText (bs : List Nat) : Except DecodeError Text :=
  match readU32 bs with
  | .error e => .error e
  | .ok (sig, bs) =>
    match readU32 bs with
    | .error e => .error e
    | .ok (rsv, bs) =>
      match readTail 1 readBit7 bs with
      | .error e => .error e
      | .ok cs => .ok ⟨sig, rsv, cs⟩

def Text.wf (r : Text) : Prop :=
  r.type_signature < 2 ^ 32 ∧ r.reserved_1 < 2 ^ 32 ∧
  ∀ c ∈ r.text, c.val < 2 ^ 7

/-- Modelled from the spec: codec for `ViewingConditions` (two XYZ
triples and a nested `Measurement` record). -/
def encodeViewingConditions (r : ViewingConditions) : List Nat :=
  be32 r.type_signature ++ be32 r.reserved_1 ++ encXYZ r.ciexyz_illuminant ++
    encXYZ r.ciexyz_surround ++ encodeMeasurement r.illuminant_type

def decodeViewingConditions (bs : List Nat) :
    Except DecodeError (ViewingConditions × List Nat) :=
  match readU32 bs with
  | .error e => .error e
  | .ok (sig, bs) =>
    match readU32 bs with
    | .error e => .error e
    | .ok (rsv, bs) =>
      match readXYZ bs with
      | .error e => .error e
      | .ok (il, bs) =>
        match readXYZ bs with
        | .error e => .error e
        | .ok (sur, bs) =>
          match decodeMeasurement bs with
          | .error e => .error e
          | .ok (m, rest) => .ok (⟨sig, rsv, il, sur, m⟩, rest)

def ViewingConditions.wf (r : ViewingConditions) : Prop :=
  r.type_signature < 2 ^ 32 ∧ r.reserved_1 < 2 ^ 32 ∧
  r.ciexyz_illuminant.val.1.val < 2 ^ 32 ∧
  r.ciexyz_illuminant.val.2.1.val < 2 ^ 32 ∧
  r.ciexyz_illuminant.val.2.2.val < 2 ^ 32 ∧
  r.ciexyz_surround.val.1.val < 2 ^ 32 ∧
  r.ciexyz_surround.val.2.1.val < 2 ^ 32 ∧
  r.ciexyz_surround.val.2.2.val < 2 ^ 32 ∧
  r.illuminant_type.wf

/-- Modelled from the spec: codec for `XYZType` (the XYZ triples fill
the record tail, twelve bytes each). -/
def encodeXYZType (r : XYZType) : List Nat :=
  be32 r.type_signature ++ be32 r.reserved_1 ++ (r.values.map encXYZ).flatten

def decodeXYZType (bs : List Nat) : Except DecodeError XYZType :=
  match readU32 bs with
  | .error e => .error e
  | .ok (sig, bs) =>
    match readU32 bs with
    | .error e => .error e
    | .ok (rsv, bs) =>
      match readTail 12 readXYZ bs with
      | .error e => .error e
      | .ok vs => .ok ⟨sig, rsv, vs⟩

def XYZType.wf (r : XYZType) : Prop :=
  r.type_signature < 2 ^ 32 ∧ r.reserved_1 < 2 ^ 32 ∧
  ∀ v ∈ r.values,
    v.val.1.val < 2 ^ 32 ∧ v.val.2.1.val < 2 ^ 32 ∧ v.val.2.2.val < 2 ^ 32

/-- Modelled from the spec: codec for `Chromaticity` (`device_channels`
drives the number of per-channel coordinate pairs: the first pair is the
dedicated field, the remaining `device_channels - 1` pairs are the
optional list, absent when there is a single channel). -/
def encodeChromaticity (r : Chromaticity) : List Nat :=
  be32 r.type_signature ++ be32 r.reserved_1 ++ be16 r.device_channels ++
    be16 r.phosphor_colorant.toU16 ++ encCoordPair r.channel_1_ciexy_coord ++
    (match r.channel_ciexy_coords with
     | none => []
     | some l => (l.map encCoordPair).flatten)

def decodeChromaticity (bs : List Nat) :
    Except DecodeError (Chromaticity × List Nat) :=
  match readU32 bs with
  | .error e => .error e
  | .ok (sig, bs) =>
    match readU32 bs with
    | .error e => .error e
    | .ok (rsv, bs) =>
      match readU16 bs with
      | .error e => .error e
      | .ok (dc, bs) =>
        match readPhosphor bs with
        | .error e => .error e
        | .ok (pc, bs) =>
          match readCoordPair bs with
          | .error e => .error e
          | .ok (c1, bs) =>
            match readListE readCoordPair (dc - 1) bs with
            | .error e => .error e
            | .ok (cs, rest) =>
                .ok (⟨sig, rsv, dc, pc, c1,
                  if dc ≤ 1 then none else some cs⟩, rest)

def Chromaticity.wf (r : Chromaticity) : Prop :=
  r.type_signature < 2 ^ 32 ∧ r.reserved_1 < 2 ^ 32 ∧
  r.device_channels < 2 ^ 16 ∧ 1 ≤ r.device_channels ∧
  r.channel_1_ciexy_coord.1.val < 2 ^ 32 ∧
  r.channel_1_ciexy_coord.2.val < 2 ^ 32 ∧
  (match r.channel_ciexy_coords with
   | none => r.device_channels = 1
   | some l => l.length = r.device_channels - 1 ∧ 2 ≤ r.device_channels ∧
       ∀ c ∈ l, c.1.val < 2 ^ 32 ∧ c.2.val < 2 ^ 32)

/-- Modelled from the spec: codec for `Lut16` (the input and output
table entry counts are computed at encode time; the CLUT length is
`clut_grid_points ^ input_channels * output_channels`). -/
def encodeLut16 (r : Lut16) : List Nat :=
  be32 r.type_signature ++ be32 r.reserved_1 ++ [r.input_channels] ++
    [r.output_channels] ++ [r.clut_grid_points] ++ [r.reserved_2] ++
    encS15 r.encoded_e1p ++ encS15 r.encoded_e2p ++ encS15 r.encoded_e3p ++
    encS15 r.encoded_e4p ++ encS15 r.encoded_e5p ++ encS15 r.encoded_e6p ++
    encS15 r.encoded_e7p ++ encS15 r.encoded_e8p ++ encS15 r.encoded_e9p ++
    be16 r.input_values.length ++ be16 r.output_tables.length ++
    (r.input_values.map be16).flatten ++ (r.clut_values.map be16).flatten ++
    (r.output_tables.map be16).flatten

def decodeLut16 (bs : List Nat) : Except DecodeError (Lut16 × List Nat) :=
  match readU32 bs with
  | .error e => .error e
  | .ok (sig, bs) =>
    match readU32 bs with
    | .error e => .error e
    | .ok (rsv, bs) =>
      match readU8 bs with
      | .error e => .error e
      | .ok (ic, bs) =>
        match readU8 bs with
        | .error e => .error e
        | .ok (oc, bs) =>
          match readU8 bs with
          | .error e => .error e
          | .ok (gp, bs) =>
            match readU8 bs with
            | .error e => .error e
            | .ok (r2, bs) =>
              match readS15 bs with
              | .error e => .error e
              | .ok (e1, bs) =>
              match readS15 bs with
              | .error e => .error e
              | .ok (e2, bs) =>
              match readS15 bs with
              | .error e => .error e
              | .ok (e3, bs) =>
              match readS15 bs with
              | .error e => .error e
              | .ok (e4, bs) =>
              match readS15 bs with
              | .error e => .error e
              | .ok (e5, bs) =>
              match readS15 bs with
              | .error e => .error e
              | .ok (e6, bs) =>
              match readS15 bs with
              | .error e => .error e
              | .ok (e7, bs) =>
              match readS15 bs with
              | .error e => .error e
              | .ok (e8, bs) =>
              match readS15 bs with
              | .error e => .error e
              | .ok (e9, bs) =>
                match readU16 bs with
                | .error e => .error e
                | .ok (ine, bs) =>
                  match readU16 bs with
                  | .error e => .error e
                  | .ok (oute, bs) =>
                    match readListE readU16 ine bs with
                    | .error e => .error e
                    | .ok (ivs, bs) =>
                      match readListE readU16 (gp ^ ic * oc) bs with
                      | .error e => .error e
                      | .ok (cvs, bs) =>
                        match readListE readU16 oute bs with
                        | .error e => .error e
                        | .ok (ovs, rest) =>
                            .ok (⟨sig, rsv, ic, oc, gp, r2, e1, e2, e3,
                              e4, e5, e6, e7, e8, e9, ine, oute, ivs,
                              cvs, ovs⟩, rest)

def Lut16.wf (r : Lut16) : Prop :=
  r.type_signature < 2 ^ 32 ∧ r.reserved_1 < 2 ^ 32 ∧
  r.input_channels < 2 ^ 8 ∧ r.output_channels < 2 ^ 8 ∧
  r.clut_grid_points < 2 ^ 8 ∧ r.reserved_2 < 2 ^ 8 ∧
  r.encoded_e1p.val < 2 ^ 32 ∧ r.encoded_e2p.val < 2 ^ 32 ∧
  r.encoded_e3p.val < 2 ^ 32 ∧ r.encoded_e4p.val < 2 ^ 32 ∧
  r.encoded_e5p.val < 2 ^ 32 ∧ r.encoded_e6p.val < 2 ^ 32 ∧
  r.encoded_e7p.val < 2 ^ 32 ∧ r.encoded_e8p.val < 2 ^ 32 ∧
  r.encoded_e9p.val < 2 ^ 32 ∧
  r.input_table_entries = r.input_values.length ∧
  r.input_values.length < 2 ^ 16 ∧
  r.output_table_entries = r.output_tables.length ∧
  r.output_tables.length < 2 ^ 16 ∧
  r.clut_values.length =
    r.clut_grid_points ^ r.input_channels * r.output_channels ∧
  (∀ v ∈ r.input_values, v < 2 ^ 16) ∧
  (∀ v ∈ r.clut_values, v < 2 ^ 16) ∧
  ∀ v ∈ r.output_tables, v < 2 ^ 16

/-- Modelled from the spec: codec for `Lut8` (`input_tables` is a u16
scalar in the source; the CLUT length is computed from the header and
the output tables fill the record tail). -/
def encodeLut8 (r : Lut8) : List Nat :=
  be32 r.type_signature ++ be32 r.reserved_1 ++ [r.input_channels] ++
    [r.output_channels] ++ [r.clut_grid_points] ++ [r.reserved_2] ++
    encS15 r.encoded_e1p ++ encS15 r.encoded_e2p ++ encS15 r.encoded_e3p ++
    encS15 r.encoded_e4p ++ encS15 r.encoded_e5p ++ encS15 r.encoded_e6p ++
    encS15 r.encoded_e7p ++ encS15 r.encoded_e8p ++ encS15 r.encoded_e9p ++
    be16 r.input_tables ++ (r.clut_values.map be16).flatten ++
    (r.output_tables.map be16).flatten

def decodeLut8 (bs : List Nat) : Except DecodeError Lut8 :=
  match readU32 bs with
  | .error e => .error e
  | .ok (sig, bs) =>
    match readU32 bs with
    | .error e => .error e
    | .ok (rsv, bs) =>
      match readU8 bs with
      | .error e => .error e
      | .ok (ic, bs) =>
        match readU8 bs with
        | .error e => .error e
        | .ok (oc, bs) =>
          match readU8 bs with
          | .error e => .error e
          | .ok (gp, bs) =>
            match readU8 bs with
            | .error e => .error e
            | .ok (r2, bs) =>
              match readS15 bs with
              | .error e => .error e
              | .ok (e1, bs) =>
              match readS15 bs with
              | .error e => .error e
              | .ok (e2, bs) =>
              match readS15 bs with
              | .error e => .error e
              | .ok (e3, bs) =>
              match readS15 bs with
              | .error e => .error e
              | .ok (e4, bs) =>
              match readS15 bs with
              | .error e => .error e
              | .ok (e5, bs) =>
              match readS15 bs with
              | .error e => .error e
              | .ok (e6, bs) =>
              match readS15 bs with
              | .error e => .error e
              | .ok (e7, bs) =>
              match readS15 bs with
              | .error e => .error e
              | .ok (e8, bs) =>
              match readS15 bs with
              | .error e => .error e
              | .ok (e9, bs) =>
                match readU16 bs with
                | .error e => .error e
                | .ok (it, bs) =>
                  match readListE readU16 (gp ^ ic * oc) bs with
                  | .error e => .error e
                  | .ok (cvs, bs) =>
                    match readU16s bs with
                    | .error e => .error e
                    | .ok ovs =>
                        .ok ⟨sig, rsv, ic, oc, gp, r2, e1, e2, e3, e4,
                          e5, e6, e7, e8, e9, it, cvs, ovs⟩

def Lut8.wf (r : Lut8) : Prop :=
  r.type_signature < 2 ^ 32 ∧ r.reserved_1 < 2 ^ 32 ∧
  r.input_channels < 2 ^ 8 ∧ r.output_channels < 2 ^ 8 ∧
  r.clut_grid_points < 2 ^ 8 ∧ r.reserved_2 < 2 ^ 8 ∧
  r.encoded_e1p.val < 2 ^ 32 ∧ r.encoded_e2p.val < 2 ^ 32 ∧
  r.encoded_e3p.val < 2 ^ 32 ∧ r.encoded_e4p.val < 2 ^ 32 ∧
  r.encoded_e5p.val < 2 ^ 32 ∧ r.encoded_e6p.val < 2 ^ 32 ∧
  r.encoded_e7p.val < 2 ^ 32 ∧ r.encoded_e8p.val < 2 ^ 32 ∧
  r.encoded_e9p.val < 2 ^ 32 ∧ r.input_tables < 2 ^ 16 ∧
  r.clut_values.length =
    r.clut_grid_points ^ r.input_channels * r.output_channels ∧
  (∀ v ∈ r.clut_values, v < 2 ^ 16) ∧
  ∀ v ∈ r.output_tables, v < 2 ^ 16

end AchromaIcc

namespace Achroma

/-- Claim C7: for every `ColorVision` value `v`, converting `v` to its
cone-cell condition triple via `ConeCellSummary::from` and then back via
`ColorVision::try_from` returns `Ok(v)`: the lookup in one direction
followed by the lookup in the other is the identity on all nine vision
kinds. -/
theorem colorVision_summary_roundtrip (v : ColorVision) :
    ColorVision.tryFromSummary (ConeCellSummary.fromVision v) = .ok v := by
  cases v <;> rfl

/-- Claim C9: indexing a `ConeCellSummary` with a `usize` returns the
long, medium and short cone conditions for indices 0, 1 and 2, and
reaches the panic arm (embedded as `none`) for every index at least 3;
the panic arm is unreachable when the index is below 3. -/
theorem coneCellSummary_indexUsize_spec (cs : ConeCellSummary) :
    cs.indexUsize 0 = some cs.l ∧
    cs.indexUsize 1 = some cs.m ∧
    cs.indexUsize 2 = some cs.s ∧
    ∀ n : Nat, 3 ≤ n → cs.indexUsize n = none := by
  refine ⟨rfl, rfl, rfl, ?_⟩
  intro n hn
  obtain ⟨k, rfl⟩ : ∃ k, n = k + 3 := ⟨n - 3, by omega⟩
  rfl

/-- Witness for claim C9 at index 7 on a concrete summary. -/
theorem coneCellSummary_indexUsize_spec_witness :
    ConeCellSummary.NORMAL.indexUsize 7 = none :=
  (coneCellSummary_indexUsize_spec ConeCellSummary.NORMAL).2.2.2 7 (by omega)

/-- Claim C10: `ColorVision::try_from` returns `Ok` exactly on the nine
distinguished constants, and returns `Err(())` (it never panics: the
embedding is a total function) on each of the other 18 cone-condition
triples. -/
theorem colorVision_tryFrom_ok_iff (s : ConeCellSummary) :
    ((∃ v, ColorVision.tryFromSummary s = .ok v) ↔
      (s = ConeCellSummary.NORMAL ∨ s = ConeCellSummary.PROTANOMALY ∨
       s = ConeCellSummary.PROTANOPIA ∨ s = ConeCellSummary.DEUTERANOMALY ∨
       s = ConeCellSummary.DEUTERANOPIA ∨ s = ConeCellSummary.TRITANOMALY ∨
       s = ConeCellSummary.TRITANOPIA ∨ s = ConeCellSummary.ACHROMATOMALY ∨
       s = ConeCellSummary.ACHROMATOPSIA)) ∧
    ((¬ (∃ v, ColorVision.tryFromSummary s = .ok v)) →
      ColorVision.tryFromSummary s = .error ()) := by
  revert s
  decide

/-- Witness for claim C10 at the triple with two anomalous cones, which is
none of the nine distinguished constants. -/
theorem colorVision_tryFrom_ok_iff_witness :
    ColorVision.tryFromSummary
      (ConeCellSummary.new .Anomalous .Anomalous .Normal) = .error () :=
  (colorVision_tryFrom_ok_iff
    (ConeCellSummary.new .Anomalous .Anomalous .Normal)).2 (by decide)

end Achroma

namespace AchromaIcc

/-- Packing a field above `n` low bits: when the low part is below `2 ^ n`
the bitwise or is plain addition. -/
theorem shiftLeft_or_eq_add (a f n : Nat) (hf : f < 2 ^ n) :
    (a <<< n) ||| f = 2 ^ n * a + f := by
  rw [Nat.shiftLeft_eq, Nat.mul_comm a (2 ^ n)]
  exact (Nat.mul_add_lt_is_or hf a).symm

/-- Extracting the integer field of a packed fixed-point word. -/
theorem pack_integer_part (ib fb i f : Nat) (hi : i < 2 ^ ib)
    (hf : f < 2 ^ fb) :
    ((((i % 2 ^ ib) <<< fb) ||| (f % 2 ^ fb)) >>> fb) % 2 ^ ib = i := by
  rw [Nat.mod_eq_of_lt hi, Nat.mod_eq_of_lt hf,
    shiftLeft_or_eq_add i f fb hf, Nat.shiftRight_eq_div_pow,
    Nat.mul_add_div (Nat.two_pow_pos fb), Nat.div_eq_of_lt hf,
    Nat.add_zero, Nat.mod_eq_of_lt hi]

/-- Extracting the fractional field of a packed fixed-point word keeps
exactly the low-order fractional bits. -/
theorem pack_fractional_part (ib fb i f : Nat) :
    (((i % 2 ^ ib) <<< fb) ||| (f % 2 ^ fb)) % 2 ^ fb = f % 2 ^ fb := by
  rw [shiftLeft_or_eq_add _ _ fb (Nat.mod_lt f (Nat.two_pow_pos fb)),
    Nat.mul_add_mod]
  exact Nat.mod_eq_of_lt (Nat.mod_lt f (Nat.two_pow_pos fb))

/-- Claim C5: for each fixed-point type (S15Fixed16, U16Fixed16,
U1Fixed15, U8Fixed8) and all integer and fractional parts within the
type's bit widths, `from_parts i f` satisfies `integer_part = i` and
`fractional_part = f`; for a fractional part exceeding the fractional
bit width the low-order bits are kept. -/
theorem fixedInt_from_parts_parts :
    (∀ i f : Nat, i < 2 ^ 16 → f < 2 ^ 16 →
      (S15Fixed16.from_parts i f).integer_part = i ∧
      (S15Fixed16.from_parts i f).fractional_part = f) ∧
    (∀ i f : Nat, (S15Fixed16.from_parts i f).fractional_part = f % 2 ^ 16) ∧
    (∀ i f : Nat, i < 2 ^ 16 → f < 2 ^ 16 →
      (U16Fixed16.from_parts i f).integer_part = i ∧
      (U16Fixed16.from_parts i f).fractional_part = f) ∧
    (∀ i f : Nat, (U16Fixed16.from_parts i f).fractional_part = f % 2 ^ 16) ∧
    (∀ i f : Nat, i < 2 ^ 1 → f < 2 ^ 15 →
      (U1Fixed15.from_parts i f).integer_part = i ∧
      (U1Fixed15.from_parts i f).fractional_part = f) ∧
    (∀ i f : Nat, (U1Fixed15.from_parts i f).fractional_part = f % 2 ^ 15) ∧
    (∀ i f : Nat, i < 2 ^ 8 → f < 2 ^ 8 →
      (U8Fixed8.from_parts i f).integer_part = i ∧
      (U8Fixed8.from_parts i f).fractional_part = f) ∧
    (∀ i f : Nat, (U8Fixed8.from_parts i f).fractional_part = f % 2 ^ 8) := by
  refine ⟨fun i f hi hf => ⟨?_, ?_⟩, fun i f => ?_,
    fun i f hi hf => ⟨?_, ?_⟩, fun i f => ?_,
    fun i f hi hf => ⟨?_, ?_⟩, fun i f => ?_,
    fun i f hi hf => ⟨?_, ?_⟩, fun i f => ?_⟩
  · simpa [S15Fixed16.from_parts, S15Fixed16.integer_part] using
      pack_integer_part 16 16 i f hi hf
  · simpa [S15Fixed16.from_parts, S15Fixed16.fractional_part] using
      (pack_fractional_part 16 16 i f).trans (Nat.mod_eq_of_lt hf)
  · simpa [S15Fixed16.from_parts, S15Fixed16.fractional_part] using
      pack_fractional_part 16 16 i f
  · simpa [U16Fixed16.from_parts, U16Fixed16.integer_part] using
      pack_integer_part 16 16 i f hi hf
  · simpa [U16Fixed16.from_parts, U16Fixed16.fractional_part] using
      (pack_fractional_part 16 16 i f).trans (Nat.mod_eq_of_lt hf)
  · simpa [U16Fixed16.from_parts, U16Fixed16.fractional_part] using
      pack_fractional_part 16 16 i f
  · simpa [U1Fixed15.from_parts, U1Fixed15.integer_part] using
      pack_integer_part 1 15 i f hi hf
  · simpa [U1Fixed15.from_parts, U1Fixed15.fractional_part] using
      (pack_fractional_part 1 15 i f).trans (Nat.mod_eq_of_lt hf)
  · simpa [U1Fixed15.from_parts, U1Fixed15.fractional_part] using
      pack_fractional_part 1 15 i f
  · simpa [U8Fixed8.from_parts, U8Fixed8.integer_part] using
      pack_integer_part 8 8 i f hi hf
  · simpa [U8Fixed8.from_parts, U8Fixed8.fractional_part] using
      (pack_fractional_part 8 8 i f).trans (Nat.mod_eq_of_lt hf)
  · simpa [U8Fixed8.from_parts, U8Fixed8.fractional_part] using
      pack_fractional_part 8 8 i f

/-- Witness for claim C5 at boundary values of each type. -/
theorem fixedInt_from_parts_parts_witness :
    (S15Fixed16.from_parts 65535 65535).integer_part = 65535 ∧
    (U16Fixed16.from_parts 0 0).fractional_part = 0 ∧
    (U1Fixed15.from_parts 1 32767).integer_part = 1 ∧
    (U8Fixed8.from_parts 255 300).fractional_part = 300 % 2 ^ 8 :=
  ⟨(fixedInt_from_parts_parts.1 65535 65535 (by norm_num) (by norm_num)).1,
   (fixedInt_from_parts_parts.2.2.1 0 0 (by norm_num) (by norm_num)).2,
   (fixedInt_from_parts_parts.2.2.2.2.1 1 32767 (by norm_num)
     (by norm_num)).1,
   fixedInt_from_parts_parts.2.2.2.2.2.2.2 255 300⟩

/-- Claim C3: for every pair of 32-bit values, building `DeviceAttributes`
from the combined 64-bit value `(high << 32) | low` equals building it
from the `[high, low]` array, and the first element occupies the upper
32 bits of the (in-range) 64-bit pattern. -/
theorem deviceAttributes_from_equiv (high low : Nat)
    (hh : high < 2 ^ 32) (hl : low < 2 ^ 32) :
    DeviceAttributes.fromU64 ((high <<< 32) ||| low) =
      DeviceAttributes.fromU32Pair high low ∧
    (DeviceAttributes.fromU32Pair high low).val = high * 2 ^ 32 + low ∧
    (DeviceAttributes.fromU32Pair high low).val < 2 ^ 64 := by
  have hval : (DeviceAttributes.fromU32Pair high low).val =
      high * 2 ^ 32 + low := by
    show (high <<< 32) ||| low = high * 2 ^ 32 + low
    rw [shiftLeft_or_eq_add high low 32 hl, Nat.mul_comm]
  refine ⟨rfl, hval, ?_⟩
  rw [hval]
  omega

/-- Witness for claim C3 at a concrete pair of 32-bit values. -/
theorem deviceAttributes_from_equiv_witness :
    DeviceAttributes.fromU64 ((0xDEADBEEF <<< 32) ||| 0x12345678) =
      DeviceAttributes.fromU32Pair 0xDEADBEEF 0x12345678 :=
  (deviceAttributes_from_equiv 0xDEADBEEF 0x12345678 (by norm_num)
    (by norm_num)).1

/-- Claim C4: `from_str` on `ProfileClass` and on `ColorSpace` returns the
unrecognized-signature error value (and cannot panic: the embedding is a
total function) on every string outside the recognized table. -/
theorem fromStr_unrecognized_err :
    (∀ s : String, s ∉ ProfileClass.strings →
      ProfileClass.fromStr s = .error ()) ∧
    (∀ s : String, s ∉ ColorSpace.strings →
      ColorSpace.fromStr s = .error ()) := by
  constructor
  · intro s h
    simp only [ProfileClass.strings, List.mem_cons, List.not_mem_nil,
      or_false] at h
    push_neg at h
    obtain ⟨h1, h2, h3, h4, h5, h6, h7⟩ := h
    simp only [ProfileClass.fromStr, if_neg h1, if_neg h2, if_neg h3,
      if_neg h4, if_neg h5, if_neg h6, if_neg h7]
  · intro s h
    simp only [ColorSpace.strings, List.mem_cons, List.not_mem_nil,
      or_false] at h
    push_neg at h
    obtain ⟨g1, g2, g3, g4, g5, g6, g7, g8, g9, g10, g11, g12, g13, g14,
      g15, g16, g17, g18, g19, g20, g21, g22, g23, g24, g25⟩ := h
    simp only [ColorSpace.fromStr, if_neg g1, if_neg g2, if_neg g3,
      if_neg g4, if_neg g5, if_neg g6, if_neg g7, if_neg g8, if_neg g9,
      if_neg g10, if_neg g11, if_neg g12, if_neg g13, if_neg g14,
      if_neg g15, if_neg g16, if_neg g17, if_neg g18, if_neg g19,
      if_neg g20, if_neg g21, if_neg g22, if_neg g23, if_neg g24,
      if_neg g25]

/-- Witness for claim C4 at the well-formed 4-ASCII-byte string `Wxyz`,
which is outside both tables. -/
theorem fromStr_unrecognized_err_witness :
    ProfileClass.fromStr "Wxyz" = .error () ∧
    ColorSpace.fromStr "Wxyz" = .error () :=
  ⟨fromStr_unrecognized_err.1 "Wxyz" (by decide),
   fromStr_unrecognized_err.2 "Wxyz" (by decide)⟩

/-- Claim C1 is violated by the code: for several variants the `repr(u32)`
discriminant is not the big-endian packing of the `from_str` string.
`CurveMeasurement::DinEPolarFilter` has code 0x444E2020 (the bytes of
`DN  `) while its string `Dn  ` packs to 0x446E2020;
`TechnologySignature::PhotographicPaperPrinter` has code 0x70687072 (the
bytes of `phpr`) while its string `rpho` packs to 0x7270686F;
`ColorimetricIntentImageStateTag::SceneColorimetryEstimates` has the
5-character string `scene`, and `FocalPlaneColorimetryEstimates` has code
0x66706565 while its string `fpce` packs to 0x66706365. -/
theorem signature_string_u32_divergence :
    (CurveMeasurement.fromStr "Dn  " = .ok .DinEPolarFilter ∧
     CurveMeasurement.toU32 .DinEPolarFilter = 0x444E2020 ∧
     strToU32BE "Dn  " = 0x446E2020 ∧
     strToU32BE "Dn  " ≠ CurveMeasurement.toU32 .DinEPolarFilter) ∧
    (TechnologySignature.fromStr "rpho" = .ok .PhotographicPaperPrinter ∧
     TechnologySignature.toU32 .PhotographicPaperPrinter = 0x70687072 ∧
     strToU32BE "rpho" = 0x7270686F ∧
     strToU32BE "rpho" ≠
       TechnologySignature.toU32 .PhotographicPaperPrinter) ∧
    (ColorimetricIntentImageStateTag.fromStr "scene" =
       .ok .SceneColorimetryEstimates ∧
     "scene".length = 5 ∧
     ColorimetricIntentImageStateTag.fromStr "fpce" =
       .ok .FocalPlaneColorimetryEstimates ∧
     ColorimetricIntentImageStateTag.toU32 .FocalPlaneColorimetryEstimates =
       0x66706565 ∧
     strToU32BE "fpce" = 0x66706365 ∧
     strToU32BE "fpce" ≠
       ColorimetricIntentImageStateTag.toU32 .FocalPlaneColorimetryEstimates) := by
  refine ⟨⟨rfl, rfl, rfl, by decide⟩, ⟨rfl, rfl, rfl, by decide⟩,
    rfl, rfl, rfl, rfl, rfl, by decide⟩

/-- Claim C2 counterexample: a `ColorantOrder` whose `colorants_count` is 1
while `colorants` is empty, and a `SampledCurveSegment` whose
`count_entries` is 7 while `curve_entries` is empty, are record values;
the count fields are independent of the sequences. -/
theorem count_field_mismatch_cex :
    (⟨0, 0, 1, 0, []⟩ : ColorantOrder).colorants_count ≠
      (⟨0, 0, 1, 0, []⟩ : ColorantOrder).colorants.length ∧
    (⟨0, 0, 7, []⟩ : SampledCurveSegment).count_entries ≠
      (⟨0, 0, 7, []⟩ : SampledCurveSegment).curve_entries.length :=
  ⟨by decide, by decide⟩

/-- Claim C2 amended: the declared count fields of `ColorantOrder` and
`SampledCurveSegment` are independent record fields that no constructor
ties to the sequence lengths; every combination of count field and
sequence, mismatched ones included, is a representable record value, so
`colorants_count == colorants.len()` (resp.
`count_entries == curve_entries.len()`) is a caller obligation rather
than an invariant enforced by construction. -/
theorem count_field_independent :
    (∀ (ts rsv cnt fp : Nat) (cols : List Nat),
      ∃ r : ColorantOrder, r.type_signature = ts ∧ r.reserved_1 = rsv ∧
        r.colorants_count = cnt ∧ r.colorant_num_fp = fp ∧
        r.colorants = cols) ∧
    (∀ (ts rsv cnt : Nat) (entries : List Nat),
      ∃ seg : SampledCurveSegment, seg.type_signature = ts ∧
        seg.reserved_1 = rsv ∧ seg.count_entries = cnt ∧
        seg.curve_entries = entries) :=
  ⟨fun ts rsv cnt fp cols =>
    ⟨⟨ts, rsv, cnt, fp, cols⟩, rfl, rfl, rfl, rfl, rfl⟩,
   fun ts rsv cnt entries => ⟨⟨ts, rsv, cnt, entries⟩, rfl, rfl, rfl, rfl⟩⟩

/-- Claim C8: every fresh construction of each array tag type (via `new`,
`From<Vec<_>>` or `Default`) yields a record whose `reserved_1` is zero
and whose `type_signature` equals the fixed signature constant of the
type. -/
theorem array_tags_fresh_construction :
    (∀ v, (S15Fixed16Array.new v).type_signature = 0x73663332 ∧
      (S15Fixed16Array.new v).reserved_1 = 0 ∧
      (S15Fixed16Array.fromVec v).type_signature = 0x73663332 ∧
      (S15Fixed16Array.fromVec v).reserved_1 = 0) ∧
    S15Fixed16Array.defaultValue.type_signature = 0x73663332 ∧
    S15Fixed16Array.defaultValue.reserved_1 = 0 ∧
    (∀ v, (U16Fixed16Array.new v).type_signature = 0x75663332 ∧
      (U16Fixed16Array.new v).reserved_1 = 0 ∧
      (U16Fixed16Array.fromVec v).type_signature = 0x75663332 ∧
      (U16Fixed16Array.fromVec v).reserved_1 = 0) ∧
    U16Fixed16Array.defaultValue.type_signature = 0x75663332 ∧
    U16Fixed16Array.defaultValue.reserved_1 = 0 ∧
    (∀ v, (U16Array.new v).type_signature = 0x75693136 ∧
      (U16Array.new v).reserved_1 = 0 ∧
      (U16Array.fromVec v).type_signature = 0x75693136 ∧
      (U16Array.fromVec v).reserved_1 = 0) ∧
    U16Array.defaultValue.type_signature = 0x75693136 ∧
    U16Array.defaultValue.reserved_1 = 0 ∧
    (∀ v, (U32Array.new v).type_signature = 0x75693332 ∧
      (U32Array.new v).reserved_1 = 0 ∧
      (U32Array.fromVec v).type_signature = 0x75693332 ∧
      (U32Array.fromVec v).reserved_1 = 0) ∧
    U32Array.defaultValue.type_signature = 0x75693332 ∧
    U32Array.defaultValue.reserved_1 = 0 ∧
    (∀ v, (U64Array.new v).type_signature = 0x75693634 ∧
      (U64Array.new v).reserved_1 = 0 ∧
      (U64Array.fromVec v).type_signature = 0x75693634 ∧
      (U64Array.fromVec v).reserved_1 = 0) ∧
    U64Array.defaultValue.type_signature = 0x75693634 ∧
    U64Array.defaultValue.reserved_1 = 0 ∧
    (∀ v, (U8Array.new v).type_signature = 0x75693038 ∧
      (U8Array.new v).reserved_1 = 0 ∧
      (U8Array.fromVec v).type_signature = 0x75693038 ∧
      (U8Array.fromVec v).reserved_1 = 0) ∧
    U8Array.defaultValue.type_signature = 0x75693038 ∧
    U8Array.defaultValue.reserved_1 = 0 :=
  ⟨fun _ => ⟨rfl, rfl, rfl, rfl⟩, rfl, rfl,
   fun _ => ⟨rfl, rfl, rfl, rfl⟩, rfl, rfl,
   fun _ => ⟨rfl, rfl, rfl, rfl⟩, rfl, rfl,
   fun _ => ⟨rfl, rfl, rfl, rfl⟩, rfl, rfl,
   fun _ => ⟨rfl, rfl, rfl, rfl⟩, rfl, rfl,
   fun _ => ⟨rfl, rfl, rfl, rfl⟩, rfl, rfl⟩

/-- Reading back a big-endian 32-bit word recovers the value. -/
theorem readU32_be32 (n : Nat) (h : n < 2 ^ 32) (rest : List Nat) :
    readU32 (be32 n ++ rest) = .ok (n, rest) := by
  have eq : ((n / 2 ^ 24 % 256 * 256 + n / 2 ^ 16 % 256) * 256 +
      n / 2 ^ 8 % 256) * 256 + n % 256 = n := by omega
  simp only [be32, List.cons_append, List.nil_append, readU32, eq]

/-- Reading back exactly the bytes that were written. -/
theorem readBytes_append (l rest : List Nat) :
    readBytes l.length (l ++ rest) = .ok (l, rest) := by
  induction l with
  | nil => rfl
  | cons b t ih =>
      simp only [List.length_cons, List.cons_append, List.append_eq,
        readBytes, ih]

/-- Reading back the big-endian 16-bit words that were written. -/
theorem readU16s_flatten (vs : List Nat) (h : ∀ v ∈ vs, v < 2 ^ 16) :
    readU16s ((vs.map be16).flatten) = .ok vs := by
  induction vs with
  | nil => rfl
  | cons v t ih =>
      have hv : v < 2 ^ 16 := h v (List.mem_cons_self v t)
      have ht : ∀ x ∈ t, x < 2 ^ 16 := fun x hx => h x (List.mem_cons_of_mem v hx)
      have eq : v / 2 ^ 8 % 256 * 256 + v % 256 = v := by omega
      simp only [List.map_cons, List.flatten_cons, be16, List.cons_append,
        List.nil_append, List.append_eq, readU16s, ih ht, eq]

/-- Reading back the bytes that were written, when the byte count is
given through an equal expression. -/
theorem readBytes_exact (l : List Nat) (n : Nat) (h : l.length = n)
    (rest : List Nat) : readBytes n (l ++ rest) = .ok (l, rest) :=
  h ▸ readBytes_append l rest

/-- Reading back exactly the elements that were written, one element
encoder at a time. -/
theorem readListE_append {α : Type}
    (re : List Nat → Except DecodeError (α × List Nat))
    (encE : α → List Nat) (l : List α) (rest : List Nat)
    (h : ∀ a ∈ l, ∀ r2 : List Nat, re (encE a ++ r2) = .ok (a, r2)) :
    readListE re l.length ((l.map encE).flatten ++ rest) = .ok (l, rest) := by
  induction l with
  | nil => rfl
  | cons a t ih =>
      simp only [List.map_cons, List.flatten_cons, List.append_assoc,
        List.length_cons, readListE, h a (List.mem_cons_self a t),
        ih (fun x hx r2 => h x (List.mem_cons_of_mem a hx) r2)]

/-- `readListE_append` with the element count given through an equal
expression. -/
theorem readListE_exact {α : Type}
    (re : List Nat → Except DecodeError (α × List Nat))
    (encE : α → List Nat) (l : List α) (n : Nat) (hn : l.length = n)
    (h : ∀ a ∈ l, ∀ r2 : List Nat, re (encE a ++ r2) = .ok (a, r2))
    (rest : List Nat) :
    readListE re n ((l.map encE).flatten ++ rest) = .ok (l, rest) :=
  hn ▸ readListE_append re encE l rest h

/-- The flattened encoding of a list of fixed-size elements has length
`k` times the element count. -/
theorem flatten_length_const {α : Type} (encE : α → List Nat) (k : Nat)
    (l : List α) (hlen : ∀ a ∈ l, (encE a).length = k) :
    ((l.map encE).flatten).length = k * l.length := by
  induction l with
  | nil => simp
  | cons a t ih =>
      simp only [List.map_cons, List.flatten_cons, List.length_append,
        hlen a (List.mem_cons_self a t),
        ih (fun x hx => hlen x (List.mem_cons_of_mem a hx)),
        List.length_cons]
      ring

/-- Reading a record tail of fixed-size elements recovers exactly the
elements that were written. -/
theorem readTail_flatten {α : Type} (k : Nat) (hk : 0 < k)
    (re : List Nat → Except DecodeError (α × List Nat))
    (encE : α → List Nat) (l : List α)
    (hlen : ∀ a ∈ l, (encE a).length = k)
    (h : ∀ a ∈ l, ∀ r2 : List Nat, re (encE a ++ r2) = .ok (a, r2)) :
    readTail k re ((l.map encE).flatten) = .ok l := by
  have hdiv : ((l.map encE).flatten).length / k = l.length := by
    rw [flatten_length_const encE k l hlen]
    exact Nat.mul_div_cancel_left l.length hk
  have hread := readListE_append re encE l [] h
  rw [List.append_nil] at hread
  simp only [readTail, hdiv, hread]

/-- Reading back one big-endian 16-bit word. -/
theorem readU16_be16 (n : Nat) (h : n < 2 ^ 16) (rest : List Nat) :
    readU16 (be16 n ++ rest) = .ok (n, rest) := by
  have eq : n / 2 ^ 8 % 256 * 256 + n % 256 = n := by omega
  simp only [be16, List.cons_append, List.nil_append, readU16, eq]

/-- Reading back one u8 element. -/
theorem readU8_encU8 (b : Nat) (rest : List Nat) :
    readU8 (encU8 b ++ rest) = .ok (b, rest) := rfl

/-- Reading back one `S15Fixed16` word. -/
theorem readS15_encS15 (v : S15Fixed16) (h : v.val < 2 ^ 32)
    (rest : List Nat) : readS15 (encS15 v ++ rest) = .ok (v, rest) := by
  obtain ⟨n⟩ := v
  simp only at h
  simp only [encS15, readS15, readU32_be32 n h rest]

/-- Reading back one `U16Fixed16` word. -/
theorem readU16F_encU16F (v : U16Fixed16) (h : v.val < 2 ^ 32)
    (rest : List Nat) : readU16F (encU16F v ++ rest) = .ok (v, rest) := by
  obtain ⟨n⟩ := v
  simp only at h
  simp only [encU16F, readU16F, readU32_be32 n h rest]

/-- Reading back one XYZ triple. -/
theorem readXYZ_encXYZ (v : XYZNum)
    (h : v.val.1.val < 2 ^ 32 ∧ v.val.2.1.val < 2 ^ 32 ∧
      v.val.2.2.val < 2 ^ 32) (rest : List Nat) :
    readXYZ (encXYZ v ++ rest) = .ok (v, rest) := by
  obtain ⟨⟨⟨a⟩, ⟨b⟩, ⟨c⟩⟩⟩ := v
  obtain ⟨h1, h2, h3⟩ := h
  simp only at h1 h2 h3
  simp only [encXYZ, readXYZ, List.append_assoc, readU32_be32 a h1,
    readU32_be32 b h2, readU32_be32 c h3]

/-- Reading back one position pair. -/
theorem readPos_encPos (p : PositionNum)
    (h : p.val.1 < 2 ^ 32 ∧ p.val.2 < 2 ^ 32) (rest : List Nat) :
    readPos (encPos p ++ rest) = .ok (p, rest) := by
  obtain ⟨⟨a, b⟩⟩ := p
  obtain ⟨h1, h2⟩ := h
  simp only at h1 h2
  simp only [encPos, readPos, List.append_assoc, readU32_be32 a h1,
    readU32_be32 b h2]

/-- Reading back one `Response16`. -/
theorem readResp_encResp (a : Response16)
    (h : a.u16_slot < 2 ^ 16 ∧ a.reserved < 2 ^ 16 ∧
      a.measurement_value.val < 2 ^ 32) (rest : List Nat) :
    readResp (encResp a ++ rest) = .ok (a, rest) := by
  obtain ⟨slot, rsv, ⟨mv⟩⟩ := a
  obtain ⟨h1, h2, h3⟩ := h
  simp only at h1 h2 h3
  simp only [encResp, readResp, List.append_assoc, readU16_be16 slot h1,
    readU16_be16 rsv h2, readU32_be32 mv h3]

/-- Reading back one 7-bit ASCII unit. -/
theorem readBit7_encBit7 (b : Bit7Ascii) (rest : List Nat) :
    readBit7 (encBit7 b ++ rest) = .ok (b, rest) := by
  obtain ⟨v⟩ := b
  rfl

/-- Reading back one CIE xy coordinate pair. -/
theorem readCoordPair_encCoordPair (c : U16Fixed16 × U16Fixed16)
    (h : c.1.val < 2 ^ 32 ∧ c.2.val < 2 ^ 32) (rest : List Nat) :
    readCoordPair (encCoordPair c ++ rest) = .ok (c, rest) := by
  obtain ⟨⟨a⟩, ⟨b⟩⟩ := c
  obtain ⟨h1, h2⟩ := h
  simp only at h1 h2
  simp only [encCoordPair, readCoordPair, List.append_assoc,
    readU32_be32 a h1, readU32_be32 b h2]

/-- Reading back a `StandardObserver` discriminant. -/
theorem readObserver_enc (v : StandardObserver) (rest : List Nat) :
    readObserver (be32 v.toU32 ++ rest) = .ok (v, rest) := by
  cases v <;>
    simp [StandardObserver.toU32, readObserver, StandardObserver.fromU32,
      readU32, be32]

/-- Reading back a `MeasurementGeometry` discriminant. -/
theorem readGeometry_enc (v : MeasurementGeometry) (rest : List Nat) :
    readGeometry (be32 v.toU32 ++ rest) = .ok (v, rest) := by
  cases v <;>
    simp [MeasurementGeometry.toU32, readGeometry,
      MeasurementGeometry.fromU32, readU32, be32]

/-- Reading back a `StandardIlluminant` discriminant. -/
theorem readIlluminant_enc (v : StandardIlluminant) (rest : List Nat) :
    readIlluminant (be32 v.toU32 ++ rest) = .ok (v, rest) := by
  cases v <;>
    simp [StandardIlluminant.toU32, readIlluminant,
      StandardIlluminant.fromU32, readU32, be32]

/-- Reading back a `PhosphorColorant` discriminant. -/
theorem readPhosphor_enc (v : PhosphorColorant) (rest : List Nat) :
    readPhosphor (be16 v.toU16 ++ rest) = .ok (v, rest) := by
  cases v <;>
    simp [PhosphorColorant.toU16, readPhosphor, PhosphorColorant.fromU16,
      readU16, be16]

/-- Reading back a `CurveMeasurement` discriminant. -/
theorem readCurveMeasurement_enc (v : CurveMeasurement) (rest : List Nat) :
    readCurveMeasurement (be32 v.toU32 ++ rest) = .ok (v, rest) := by
  cases v <;>
    simp [CurveMeasurement.toU32, readCurveMeasurement,
      CurveMeasurement.fromU32, readU32, be32]

/-- Round trip for `ColorantOrder`. -/
theorem rt_ColorantOrder (r : ColorantOrder) (h : r.wf) :
    decodeColorantOrder (encodeColorantOrder r) = .ok r := by
  obtain ⟨sig, rsv, cnt, fp, cols⟩ := r
  obtain ⟨h1, h2, h3, h4, h5, h6⟩ := h
  simp only at h1 h2 h3 h4 h5 h6
  subst h3
  have hcols := readBytes_append cols []
  rw [List.append_nil] at hcols
  simp only [encodeColorantOrder, decodeColorantOrder, List.append_assoc,
    List.cons_append, List.nil_append, List.append_eq, readU32_be32 _ h1,
    readU32_be32 _ h2, readU32_be32 _ h4, readU8, hcols]

/-- Round trip for `U16Array`. -/
theorem rt_U16Array (a : U16Array) (h : a.wf) :
    decodeU16Array (encodeU16Array a) = .ok a := by
  obtain ⟨sig, rsv, vs⟩ := a
  obtain ⟨h1, h2, h3⟩ := h
  simp only at h1 h2 h3
  simp only [encodeU16Array, decodeU16Array, List.append_assoc,
    readU32_be32 _ h1, readU32_be32 _ h2, readU16s_flatten vs h3]

/-- Round trip for `SampledCurveSegment`. -/
theorem rt_SampledCurveSegment (r : SampledCurveSegment) (h : r.wf)
    (rest : List Nat) :
    decodeSampledCurveSegment (encodeSampledCurveSegment r ++ rest) =
      .ok (r, rest) := by
  obtain ⟨sig, rsv, cnt, entries⟩ := r
  obtain ⟨h1, h2, h3, h4, h5⟩ := h
  simp only at h1 h2 h3 h4 h5
  subst h3
  simp only [encodeSampledCurveSegment, decodeSampledCurveSegment,
    List.append_assoc, readU32_be32 sig h1, readU32_be32 rsv h2,
    readU32_be32 entries.length h4,
    readListE_append readU32 be32 entries rest
      (fun a ha r2 => readU32_be32 a (h5 a ha) r2)]

/-- Round trip for `S15Fixed16Array`. -/
theorem rt_S15Fixed16Array (a : S15Fixed16Array) (h : a.wf) :
    decodeS15Fixed16Array (encodeS15Fixed16Array a) = .ok a := by
  obtain ⟨sig, rsv, vs⟩ := a
  obtain ⟨h1, h2, h3⟩ := h
  simp only at h1 h2 h3
  simp only [encodeS15Fixed16Array, decodeS15Fixed16Array,
    List.append_assoc, readU32_be32 sig h1, readU32_be32 rsv h2,
    readTail_flatten 4 (by norm_num) readS15 encS15 vs (fun v _ => rfl)
      (fun v hv r2 => readS15_encS15 v (h3 v hv) r2)]

/-- Round trip for `U16Fixed16Array`. -/
theorem rt_U16Fixed16Array (a : U16Fixed16Array) (h : a.wf) :
    decodeU16Fixed16Array (encodeU16Fixed16Array a) = .ok a := by
  obtain ⟨sig, rsv, vs⟩ := a
  obtain ⟨h1, h2, h3⟩ := h
  simp only at h1 h2 h3
  simp only [encodeU16Fixed16Array, decodeU16Fixed16Array,
    List.append_assoc, readU32_be32 sig h1, readU32_be32 rsv h2,
    readTail_flatten 4 (by norm_num) readU16F encU16F vs (fun v _ => rfl)
      (fun v hv r2 => readU16F_encU16F v (h3 v hv) r2)]

/-- Round trip for `U32Array`. -/
theorem rt_U32Array (a : U32Array) (h : a.wf) :
    decodeU32Array (encodeU32Array a) = .ok a := by
  obtain ⟨sig, rsv, vs⟩ := a
  obtain ⟨h1, h2, h3⟩ := h
  simp only at h1 h2 h3
  simp only [encodeU32Array, decodeU32Array, List.append_assoc,
    readU32_be32 sig h1, readU32_be32 rsv h2,
    readTail_flatten 4 (by norm_num) readU32 be32 vs (fun v _ => rfl)
      (fun v hv r2 => readU32_be32 v (h3 v hv) r2)]

/-- Round trip for `U64Array` (u32 elements, as in the source). -/
theorem rt_U64Array (a : U64Array) (h : a.wf) :
    decodeU64Array (encodeU64Array a) = .ok a := by
  obtain ⟨sig, rsv, vs⟩ := a
  obtain ⟨h1, h2, h3⟩ := h
  simp only at h1 h2 h3
  simp only [encodeU64Array, decodeU64Array, List.append_assoc,
    readU32_be32 sig h1, readU32_be32 rsv h2,
    readTail_flatten 4 (by norm_num) readU32 be32 vs (fun v _ => rfl)
      (fun v hv r2 => readU32_be32 v (h3 v hv) r2)]

/-- Round trip for `U8Array`. -/
theorem rt_U8Array (a : U8Array) (h : a.wf) :
    decodeU8Array (encodeU8Array a) = .ok a := by
  obtain ⟨sig, rsv, vs⟩ := a
  obtain ⟨h1, h2, h3⟩ := h
  simp only at h1 h2 h3
  simp only [encodeU8Array, decodeU8Array, List.append_assoc,
    readU32_be32 sig h1, readU32_be32 rsv h2,
    readTail_flatten 1 (by norm_num) readU8 encU8 vs (fun v _ => rfl)
      (fun v _ r2 => readU8_encU8 v r2)]

/-- Round trip for `Cicp`. -/
theorem rt_Cicp (r : Cicp) (h : r.wf) (rest : List Nat) :
    decodeCicp (encodeCicp r ++ rest) = .ok (r, rest) := by
  obtain ⟨sig, rsv, cp, tc, mc, vf⟩ := r
  obtain ⟨h1, h2, h3, h4, h5, h6⟩ := h
  simp only at h1 h2 h3 h4 h5 h6
  simp only [encodeCicp, decodeCicp, List.append_assoc, List.cons_append,
    List.nil_append, readU32_be32 sig h1, readU32_be32 rsv h2, readU8]

/-- Round trip for `ColorantTable`. -/
theorem rt_ColorantTable (r : ColorantTable) (h : r.wf) (rest : List Nat) :
    decodeColorantTable (encodeColorantTable r ++ rest) = .ok (r, rest) := by
  obtain ⟨sig, rsv, cc, ec, vs⟩ := r
  obtain ⟨h1, h2, h3, h4, h5, h6⟩ := h
  simp only at h1 h2 h3 h4 h5 h6
  subst h4
  simp only [encodeColorantTable, decodeColorantTable, List.append_assoc,
    readU32_be32 sig h1, readU32_be32 rsv h2, readU32_be32 cc h3,
    readU32_be32 vs.length h5,
    readListE_append readU16 be16 vs rest
      (fun a ha r2 => readU16_be16 a (h6 a ha) r2)]

/-- Round trip for `DataType`. -/
theorem rt_DataType (r : DataType) (h : r.wf) (rest : List Nat) :
    decodeDataType (encodeDataType r ++ rest) = .ok (r, rest) := by
  obtain ⟨sig, rsv, df⟩ := r
  obtain ⟨h1, h2, h3⟩ := h
  simp only at h1 h2 h3
  simp only [encodeDataType, decodeDataType, List.append_assoc,
    readU32_be32 sig h1, readU32_be32 rsv h2, readU32_be32 df h3]

/-- Round trip for `LutAToB`. -/
theorem rt_LutAToB (r : LutAToB) (h : r.wf) (rest : List Nat) :
    decodeLutAToB (encodeLutAToB r ++ rest) = .ok (r, rest) := by
  obtain ⟨sig, rsv, ic, oc, r2, ofb⟩ := r
  obtain ⟨h1, h2, h3, h4, h5, h6, h7⟩ := h
  simp only at h1 h2 h3 h4 h5 h6 h7
  simp only [encodeLutAToB, decodeLutAToB, List.append_assoc,
    List.cons_append, List.nil_append, readU32_be32 sig h1,
    readU32_be32 rsv h2, readU8, readBytes_exact r2 2 h5,
    readU32_be32 ofb h7]

/-- Round trip for `LutAToBClut`. -/
theorem rt_LutAToBClut (r : LutAToBClut) (h : r.wf) :
    decodeLutAToBClut (encodeLutAToBClut r) = .ok r := by
  obtain ⟨gp, prec, rsv, clut⟩ := r
  obtain ⟨h1, h2, h3, h4, h5, h6⟩ := h
  simp only at h1 h2 h3 h4 h5 h6
  simp only [encodeLutAToBClut, decodeLutAToBClut, List.append_assoc,
    List.cons_append, List.nil_append, readBytes_exact gp 16 h1, readU8,
    readBytes_exact rsv 3 h4]

/-- Round trip for `LutBToA`. -/
theorem rt_LutBToA (r : LutBToA) (h : r.wf) (rest : List Nat) :
    decodeLutBToA (encodeLutBToA r ++ rest) = .ok (r, rest) := by
  obtain ⟨sig, rsv, ic, oc, r2, o1, o2, o3, o4, o5⟩ := r
  obtain ⟨h1, h2, h3, h4, h5, h6, h7, h8, h9, h10, h11⟩ := h
  simp only at h1 h2 h3 h4 h5 h6 h7 h8 h9 h10 h11
  simp only [encodeLutBToA, decodeLutBToA, List.append_assoc,
    List.cons_append, List.nil_append, readU32_be32 sig h1,
    readU32_be32 rsv h2, readU8,
    readListE_exact readU16 be16 r2 2 h5
      (fun a ha r3 => readU16_be16 a (h6 a ha) r3),
    readU32_be32 o1 h7, readU32_be32 o2 h8, readU32_be32 o3 h9,
    readU32_be32 o4 h10, readU32_be32 o5 h11]

/-- Round trip for `Measurement`. -/
theorem rt_Measurement (r : Measurement) (h : r.wf) (rest : List Nat) :
    decodeMeasurement (encodeMeasurement r ++ rest) = .ok (r, rest) := by
  obtain ⟨sig, rsv, obs, xyz, geo, ⟨⟨fl⟩⟩, il⟩ := r
  obtain ⟨h1, h2, h3, h4, h5, h6⟩ := h
  simp only at h1 h2 h3 h4 h5 h6
  simp only [encodeMeasurement, decodeMeasurement, List.append_assoc,
    readU32_be32 sig h1, readU32_be32 rsv h2, readObserver_enc obs,
    readXYZ_encXYZ xyz ⟨h3, h4, h5⟩, readGeometry_enc geo,
    readU32_be32 fl h6, readIlluminant_enc il]

/-- Round trip for `MultiLocalizedUnicode`. -/
theorem rt_MultiLocalizedUnicode (r : MultiLocalizedUnicode) (h : r.wf)
    (rest : List Nat) :
    decodeMultiLocalizedUnicode (encodeMultiLocalizedUnicode r ++ rest) =
      .ok (r, rest) := by
  obtain ⟨sig, rsv, cnt, rs, lang, country, slen, soff, recs⟩ := r
  obtain ⟨h1, h2, h3, h4, h5, h6, h7, h8, h9, h10⟩ := h
  simp only at h1 h2 h3 h4 h5 h6 h7 h8 h9 h10
  subst h3
  simp only [encodeMultiLocalizedUnicode, decodeMultiLocalizedUnicode,
    List.append_assoc, readU32_be32 sig h1, readU32_be32 rsv h2,
    readU32_be32 recs.length h4, readU32_be32 rs h5,
    readU16_be16 lang h6, readU16_be16 country h7, readU32_be32 slen h8,
    readU32_be32 soff h9,
    readListE_append readU16 be16 recs rest
      (fun a ha r2 => readU16_be16 a (h10 a ha) r2)]

/-- Round trip for `MultiProcessElements`. -/
theorem rt_MultiProcessElements (r : MultiProcessElements) (h : r.wf)
    (rest : List Nat) :
    decodeMultiProcessElements (encodeMultiProcessElements r ++ rest) =
      .ok (r, rest) := by
  obtain ⟨sig, rsv, ic, oc, pe, ps⟩ := r
  obtain ⟨h1, h2, h3, h4, h5, h6, h7⟩ := h
  simp only at h1 h2 h3 h4 h5 h6 h7
  subst h5
  simp only [encodeMultiProcessElements, decodeMultiProcessElements,
    List.append_assoc, readU32_be32 sig h1, readU32_be32 rsv h2,
    readU16_be16 ic h3, readU16_be16 oc h4, readU32_be32 ps.length h6,
    readListE_append readPos encPos ps rest
      (fun p hp r2 => readPos_encPos p (h7 p hp) r2)]

/-- Round trip for `GeneralElement`. -/
theorem rt_GeneralElement (r : GeneralElement) (h : r.wf)
    (rest : List Nat) :
    decodeGeneralElement (encodeGeneralElement r ++ rest) =
      .ok (r, rest) := by
  obtain ⟨sig, rsv, ic, oc⟩ := r
  obtain ⟨h1, h2, h3, h4⟩ := h
  simp only at h1 h2 h3 h4
  simp only [encodeGeneralElement, decodeGeneralElement, List.append_assoc,
    readU32_be32 sig h1, readU32_be32 rsv h2, readU16_be16 ic h3,
    readU16_be16 oc h4]

/-- Round trip for `CurveSetElement`. -/
theorem rt_CurveSetElement (r : CurveSetElement) (h : r.wf) :
    decodeCurveSetElement (encodeCurveSetElement r) = .ok r := by
  obtain ⟨sig, rsv, ic, oc, ps⟩ := r
  obtain ⟨h1, h2, h3, h4, h5⟩ := h
  simp only at h1 h2 h3 h4 h5
  simp only [encodeCurveSetElement, decodeCurveSetElement,
    List.append_assoc, readU32_be32 sig h1, readU32_be32 rsv h2,
    readU16_be16 ic h3, readU16_be16 oc h4,
    readTail_flatten 8 (by norm_num) readPos encPos ps (fun p _ => rfl)
      (fun p hp r2 => readPos_encPos p (h5 p hp) r2)]

/-- Round trip for `D1Curve`. -/
theorem rt_D1Curve (r : D1Curve) (h : r.wf) :
    decodeD1Curve (encodeD1Curve r) = .ok r := by
  obtain ⟨sig, rsv, seg, r2, bps⟩ := r
  obtain ⟨h1, h2, h3, h4, h5⟩ := h
  simp only at h1 h2 h3 h4 h5
  simp only [encodeD1Curve, decodeD1Curve, List.append_assoc,
    readU32_be32 sig h1, readU32_be32 rsv h2, readU16_be16 seg h3,
    readU16_be16 r2 h4,
    readTail_flatten 4 (by norm_num) readU32 be32 bps (fun v _ => rfl)
      (fun v hv r3 => readU32_be32 v (h5 v hv) r3)]

/-- Round trip for `FormulaCurveSegment`. -/
theorem rt_FormulaCurveSegment (r : FormulaCurveSegment) (h : r.wf)
    (rest : List Nat) :
    decodeFormulaCurveSegment (encodeFormulaCurveSegment r ++ rest) =
      .ok (r, rest) := by
  obtain ⟨sig, rsv, ft, r2, np, ps⟩ := r
  obtain ⟨h1, h2, h3, h4, h5, h6, h7⟩ := h
  simp only at h1 h2 h3 h4 h5 h6 h7
  subst h5
  simp only [encodeFormulaCurveSegment, decodeFormulaCurveSegment,
    List.append_assoc, readU32_be32 sig h1, readU32_be32 rsv h2,
    readU16_be16 ft h3, readU16_be16 r2 h4, readU16_be16 ps.length h6,
    readListE_append readU32 be32 ps rest
      (fun v hv r3 => readU32_be32 v (h7 v hv) r3)]

/-- Round trip for `MatrixElement`. -/
theorem rt_MatrixElement (r : MatrixElement) (h : r.wf) :
    decodeMatrixElement (encodeMatrixElement r) = .ok r := by
  obtain ⟨sig, rsv, ic, oc, es⟩ := r
  obtain ⟨h1, h2, h3, h4, h5⟩ := h
  simp only at h1 h2 h3 h4 h5
  simp only [encodeMatrixElement, decodeMatrixElement, List.append_assoc,
    readU32_be32 sig h1, readU32_be32 rsv h2, readU16_be16 ic h3,
    readU16_be16 oc h4,
    readTail_flatten 4 (by norm_num) readU32 be32 es (fun v _ => rfl)
      (fun v hv r2 => readU32_be32 v (h5 v hv) r2)]

/-- Round trip for `ClutElement`. -/
theorem rt_ClutElement (r : ClutElement) (h : r.wf) :
    decodeClutElement (encodeClutElement r) = .ok r := by
  obtain ⟨sig, rsv, ic, oc, gp, ds⟩ := r
  obtain ⟨h1, h2, h3, h4, h5, h6⟩ := h
  simp only at h1 h2 h3 h4 h5 h6
  simp only [encodeClutElement, decodeClutElement, List.append_assoc,
    List.cons_append, List.nil_append, readU32_be32 sig h1,
    readU32_be32 rsv h2, readU16_be16 ic h3, readU16_be16 oc h4, readU8,
    readTail_flatten 4 (by norm_num) readU32 be32 ds (fun v _ => rfl)
      (fun v hv r2 => readU32_be32 v (h6 v hv) r2)]

/-- Round trip for `BacsElement`. -/
theorem rt_BacsElement (r : BacsElement) (h : r.wf) (rest : List Nat) :
    decodeBacsElement (encodeBacsElement r ++ rest) = .ok (r, rest) := by
  obtain ⟨sig, rsv, ic, oc, s2⟩ := r
  obtain ⟨h1, h2, h3, h4, h5⟩ := h
  simp only at h1 h2 h3 h4 h5
  simp only [encodeBacsElement, decodeBacsElement, List.append_assoc,
    readU32_be32 sig h1, readU32_be32 rsv h2, readU16_be16 ic h3,
    readU16_be16 oc h4, readU32_be32 s2 h5]

/-- Round trip for `EacsElement`. -/
theorem rt_EacsElement (r : EacsElement) (h : r.wf) (rest : List Nat) :
    decodeEacsElement (encodeEacsElement r ++ rest) = .ok (r, rest) := by
  obtain ⟨sig, rsv, ic, oc, s2⟩ := r
  obtain ⟨h1, h2, h3, h4, h5⟩ := h
  simp only at h1 h2 h3 h4 h5
  simp only [encodeEacsElement, decodeEacsElement, List.append_assoc,
    readU32_be32 sig h1, readU32_be32 rsv h2, readU16_be16 ic h3,
    readU16_be16 oc h4, readU32_be32 s2 h5]

/-- Round trip for `ParametricCurve`. -/
theorem rt_ParametricCurve (r : ParametricCurve) (h : r.wf)
    (rest : List Nat) :
    decodeParametricCurve (encodeParametricCurve r ++ rest) =
      .ok (r, rest) := by
  obtain ⟨ps, rsv, ef, r2⟩ := r
  obtain ⟨h1, h2, h3, h4⟩ := h
  simp only at h1 h2 h3 h4
  simp only [encodeParametricCurve, decodeParametricCurve,
    List.append_assoc, readU32_be32 ps h1, readU32_be32 rsv h2,
    readU16_be16 ef h3, readU32_be32 r2 h4]

/-- Round trip for `Signature`. -/
theorem rt_Signature (r : Signature) (h : r.wf) (rest : List Nat) :
    decodeSignature (encodeSignature r ++ rest) = .ok (r, rest) := by
  obtain ⟨sig, rsv, s2⟩ := r
  obtain ⟨h1, h2, h3⟩ := h
  simp only at h1 h2 h3
  simp only [encodeSignature, decodeSignature, List.append_assoc,
    readU32_be32 sig h1, readU32_be32 rsv h2, readU32_be32 s2 h3]

/-- Round trip for `NamedColor2`. -/
theorem rt_NamedColor2 (r : NamedColor2) (h : r.wf) (rest : List Nat) :
    decodeNamedColor2 (encodeNamedColor2 r ++ rest) = .ok (r, rest) := by
  obtain ⟨cc, cdc, ⟨pv⟩, ⟨sv⟩, ⟨rv⟩, ⟨p1, p2, p3⟩, dcs⟩ := r
  obtain ⟨h1, h2, h3, h4, h5, h6, h7, h8, h9, h10⟩ := h
  simp only at h1 h2 h3 h4 h5 h6 h7 h8 h9 h10
  subst h2
  simp only [encodeNamedColor2, decodeNamedColor2, List.append_assoc,
    List.cons_append, List.nil_append, encBit7, readBit7,
    readU32_be32 cc h1, readU32_be32 dcs.length h3,
    readU16_be16 p1 h7, readU16_be16 p2 h8, readU16_be16 p3 h9,
    readListE_append readU16 be16 dcs rest
      (fun v hv r2 => readU16_be16 v (h10 v hv) r2)]

/-- Round trip for the empty `ProfileSequenceDesc`. -/
theorem rt_ProfileSequenceDesc (r : ProfileSequenceDesc)
    (rest : List Nat) :
    decodeProfileSequenceDesc (encodeProfileSequenceDesc r ++ rest) =
      .ok (r, rest) := by
  cases r
  rfl

/-- Round trip for the empty `ProfileDescriptionSignature`. -/
theorem rt_ProfileDescriptionSignature (r : ProfileDescriptionSignature)
    (rest : List Nat) :
    decodeProfileDescriptionSignature
      (encodeProfileDescriptionSignature r ++ rest) = .ok (r, rest) := by
  cases r
  rfl

/-- Round trip for `ProfileSequenceIdentifier`. -/
theorem rt_ProfileSequenceIdentifier (r : ProfileSequenceIdentifier)
    (h : r.wf) (rest : List Nat) :
    decodeProfileSequenceIdentifier
      (encodeProfileSequenceIdentifier r ++ rest) = .ok (r, rest) := by
  obtain ⟨sig, rsv, cnt, ps⟩ := r
  obtain ⟨h1, h2, h3, h4, h5⟩ := h
  simp only at h1 h2 h3 h4 h5
  subst h3
  simp only [encodeProfileSequenceIdentifier,
    decodeProfileSequenceIdentifier, List.append_assoc,
    readU32_be32 sig h1, readU32_be32 rsv h2, readU32_be32 ps.length h4,
    readListE_append readPos encPos ps rest
      (fun p hp r2 => readPos_encPos p (h5 p hp) r2)]

/-- Round trip for `ProfileIdentifier` (nested record). -/
theorem rt_ProfileIdentifier (r : ProfileIdentifier) (h : r.wf)
    (rest : List Nat) :
    decodeProfileIdentifier (encodeProfileIdentifier r ++ rest) =
      .ok (r, rest) := by
  obtain ⟨id, desc⟩ := r
  obtain ⟨h1, h2⟩ := h
  simp only at h1 h2
  simp only [encodeProfileIdentifier, decodeProfileIdentifier,
    List.append_assoc, readU16_be16 id h1,
    rt_MultiLocalizedUnicode desc h2]

/-- Round trip for `ResponseCurveSet16<N>`, for every `N`. -/
theorem rt_ResponseCurveSet16 (N : Nat) (r : ResponseCurveSet16 N)
    (h : r.wf) (rest : List Nat) :
    decodeResponseCurveSet16 N (encodeResponseCurveSet16 r ++ rest) =
      .ok (r, rest) := by
  obtain ⟨sig, rsv, ch, mt, offs⟩ := r
  obtain ⟨h1, h2, h3, h4, h5, h6⟩ := h
  simp only at h1 h2 h3 h4 h5 h6
  simp only [encodeResponseCurveSet16, decodeResponseCurveSet16,
    List.append_assoc, readU32_be32 sig h1, readU32_be32 rsv h2,
    readU16_be16 ch h3, readU32_be32 mt h4,
    readListE_exact readU32 be32 offs N h5
      (fun v hv r2 => readU32_be32 v (h6 v hv) r2)]

/-- Round trip for `CurveStructure<N, P>`, for every `N` and `P`. -/
theorem rt_CurveStructure (N P : Nat) (r : CurveStructure N P) (h : r.wf)
    (rest : List Nat) :
    decodeCurveStructure N P (encodeCurveStructure r ++ rest) =
      .ok (r, rest) := by
  obtain ⟨mu, cm, pv, ra⟩ := r
  obtain ⟨h1, h2, h3, h4, h5, h6⟩ := h
  simp only at h1 h2 h3 h4 h5 h6
  simp only [encodeCurveStructure, decodeCurveStructure,
    List.append_assoc, readCurveMeasurement_enc mu,
    readListE_exact readU32 be32 cm N h1
      (fun v hv r2 => readU32_be32 v (h2 v hv) r2),
    readListE_exact readU32 be32 pv N h3
      (fun v hv r2 => readU32_be32 v (h4 v hv) r2),
    readListE_exact readResp encResp ra P h5
      (fun a ha r2 => readResp_encResp a (h6 a ha) r2)]

/-- Round trip for `Text`. -/
theorem rt_Text (r : Text) (h : r.wf) :
    decodeText (encodeText r) = .ok r := by
  obtain ⟨sig, rsv, cs⟩ := r
  obtain ⟨h1, h2, h3⟩ := h
  simp only at h1 h2 h3
  simp only [encodeText, decodeText, List.append_assoc,
    readU32_be32 sig h1, readU32_be32 rsv h2,
    readTail_flatten 1 (by norm_num) readBit7 encBit7 cs
      (fun c _ => rfl) (fun c _ r2 => readBit7_encBit7 c r2)]

/-- Round trip for `ViewingConditions` (nested record). -/
theorem rt_ViewingConditions (r : ViewingConditions) (h : r.wf)
    (rest : List Nat) :
    decodeViewingConditions (encodeViewingConditions r ++ rest) =
      .ok (r, rest) := by
  obtain ⟨sig, rsv, ilx, sur, m⟩ := r
  obtain ⟨h1, h2, h3, h4, h5, h6, h7, h8, h9⟩ := h
  simp only at h1 h2 h3 h4 h5 h6 h7 h8 h9
  simp only [encodeViewingConditions, decodeViewingConditions,
    List.append_assoc, readU32_be32 sig h1, readU32_be32 rsv h2,
    readXYZ_encXYZ ilx ⟨h3, h4, h5⟩, readXYZ_encXYZ sur ⟨h6, h7, h8⟩,
    rt_Measurement m h9]

/-- Round trip for `XYZType`. -/
theorem rt_XYZType (r : XYZType) (h : r.wf) :
    decodeXYZType (encodeXYZType r) = .ok r := by
  obtain ⟨sig, rsv, vs⟩ := r
  obtain ⟨h1, h2, h3⟩ := h
  simp only at h1 h2 h3
  simp only [encodeXYZType, decodeXYZType, List.append_assoc,
    readU32_be32 sig h1, readU32_be32 rsv h2,
    readTail_flatten 12 (by norm_num) readXYZ encXYZ vs (fun v _ => rfl)
      (fun v hv r2 => readXYZ_encXYZ v (h3 v hv) r2)]

/-- Round trip for `Chromaticity`. -/
theorem rt_Chromaticity (r : Chromaticity) (h : r.wf) (rest : List Nat) :
    decodeChromaticity (encodeChromaticity r ++ rest) = .ok (r, rest) := by
  obtain ⟨sig, rsv, dc, pc, c1, coords⟩ := r
  obtain ⟨h1, h2, h3, h4, h5, h6, h7⟩ := h
  simp only at h1 h2 h3 h4 h5 h6 h7
  cases coords with
  | none =>
      simp only at h7
      subst h7
      simp only [encodeChromaticity, decodeChromaticity, List.append_assoc,
        List.nil_append, readU32_be32 sig h1, readU32_be32 rsv h2,
        readU16_be16 1 h3, readPhosphor_enc pc,
        readCoordPair_encCoordPair c1 ⟨h5, h6⟩]
      norm_num [readListE]
  | some l =>
      simp only at h7
      obtain ⟨hlen, hdc, helts⟩ := h7
      simp only [encodeChromaticity, decodeChromaticity, List.append_assoc,
        readU32_be32 sig h1, readU32_be32 rsv h2, readU16_be16 dc h3,
        readPhosphor_enc pc, readCoordPair_encCoordPair c1 ⟨h5, h6⟩,
        readListE_exact readCoordPair encCoordPair l (dc - 1) hlen
          (fun c hc r2 => readCoordPair_encCoordPair c (helts c hc) r2),
        if_neg (show ¬ dc ≤ 1 by omega)]

/-- Round trip for `Lut16`. -/
theorem rt_Lut16 (r : Lut16) (h : r.wf) (rest : List Nat) :
    decodeLut16 (encodeLut16 r ++ rest) = .ok (r, rest) := by
  obtain ⟨sig, rsv, ic, oc, gp, r2, e1, e2, e3, e4, e5, e6, e7, e8, e9,
    ine, oute, ivs, cvs, ovs⟩ := r
  obtain ⟨h1, h2, h3, h4, h5, h6, h7, h8, h9, h10, h11, h12, h13, h14,
    h15, h16, h17, h18, h19, h20, h21, h22, h23⟩ := h
  simp only at h1 h2 h3 h4 h5 h6 h7 h8 h9 h10 h11 h12
  simp only at h13 h14 h15 h16 h17 h18 h19 h20 h21 h22 h23
  subst h16
  subst h18
  simp only [encodeLut16, decodeLut16, List.append_assoc,
    List.cons_append, List.nil_append, readU32_be32 sig h1,
    readU32_be32 rsv h2, readU8, readS15_encS15 e1 h7,
    readS15_encS15 e2 h8, readS15_encS15 e3 h9, readS15_encS15 e4 h10,
    readS15_encS15 e5 h11, readS15_encS15 e6 h12, readS15_encS15 e7 h13,
    readS15_encS15 e8 h14, readS15_encS15 e9 h15,
    readU16_be16 ivs.length h17, readU16_be16 ovs.length h19,
    readListE_exact readU16 be16 ivs ivs.length rfl
      (fun v hv r3 => readU16_be16 v (h21 v hv) r3),
    readListE_exact readU16 be16 cvs (gp ^ ic * oc) h20
      (fun v hv r3 => readU16_be16 v (h22 v hv) r3),
    readListE_exact readU16 be16 ovs ovs.length rfl
      (fun v hv r3 => readU16_be16 v (h23 v hv) r3)]

/-- Round trip for `Lut8`. -/
theorem rt_Lut8 (r : Lut8) (h : r.wf) :
    decodeLut8 (encodeLut8 r) = .ok r := by
  obtain ⟨sig, rsv, ic, oc, gp, r2, e1, e2, e3, e4, e5, e6, e7, e8, e9,
    it, cvs, ovs⟩ := r
  obtain ⟨h1, h2, h3, h4, h5, h6, h7, h8, h9, h10, h11, h12, h13, h14,
    h15, h16, h17, h18, h19⟩ := h
  simp only at h1 h2 h3 h4 h5 h6 h7 h8 h9 h10 h11 h12
  simp only at h13 h14 h15 h16 h17 h18 h19
  simp only [encodeLut8, decodeLut8, List.append_assoc, List.cons_append,
    List.nil_append, readU32_be32 sig h1, readU32_be32 rsv h2, readU8,
    readS15_encS15 e1 h7, readS15_encS15 e2 h8, readS15_encS15 e3 h9,
    readS15_encS15 e4 h10, readS15_encS15 e5 h11, readS15_encS15 e6 h12,
    readS15_encS15 e7 h13, readS15_encS15 e8 h14, readS15_encS15 e9 h15,
    readU16_be16 it h16,
    readListE_exact readU16 be16 cvs (gp ^ ic * oc) h17
      (fun v hv r3 => readU16_be16 v (h18 v hv) r3),
    readU16s_flatten ovs h19]

/-- Claim C6: for every tagged record type defined in `tags/mod.rs` and
every structurally valid record value `r` (count fields consistent with
their sequence lengths, fields within their machine widths), decoding
the bytes produced by the modelled encoder yields `r` back:
`decode(encode(r)) == r`.  Records read as part of a larger stream
(count-driven layouts) also return the unconsumed rest of the buffer. -/
theorem decode_encode_roundtrip :
    (∀ r : ColorantOrder, r.wf →
      decodeColorantOrder (encodeColorantOrder r) = .ok r) ∧
    (∀ a : U16Array, a.wf →
      decodeU16Array (encodeU16Array a) = .ok a) ∧
    (∀ r : SampledCurveSegment, r.wf → ∀ rest,
      decodeSampledCurveSegment (encodeSampledCurveSegment r ++ rest) =
        .ok (r, rest)) ∧
    (∀ a : S15Fixed16Array, a.wf →
      decodeS15Fixed16Array (encodeS15Fixed16Array a) = .ok a) ∧
    (∀ a : U16Fixed16Array, a.wf →
      decodeU16Fixed16Array (encodeU16Fixed16Array a) = .ok a) ∧
    (∀ a : U32Array, a.wf → decodeU32Array (encodeU32Array a) = .ok a) ∧
    (∀ a : U64Array, a.wf → decodeU64Array (encodeU64Array a) = .ok a) ∧
    (∀ a : U8Array, a.wf → decodeU8Array (encodeU8Array a) = .ok a) ∧
    (∀ r : Chromaticity, r.wf → ∀ rest,
      decodeChromaticity (encodeChromaticity r ++ rest) = .ok (r, rest)) ∧
    (∀ r : Cicp, r.wf → ∀ rest,
      decodeCicp (encodeCicp r ++ rest) = .ok (r, rest)) ∧
    (∀ r : ColorantTable, r.wf → ∀ rest,
      decodeColorantTable (encodeColorantTable r ++ rest) = .ok (r, rest)) ∧
    (∀ r : DataType, r.wf → ∀ rest,
      decodeDataType (encodeDataType r ++ rest) = .ok (r, rest)) ∧
    (∀ r : Lut16, r.wf → ∀ rest,
      decodeLut16 (encodeLut16 r ++ rest) = .ok (r, rest)) ∧
    (∀ r : Lut8, r.wf → decodeLut8 (encodeLut8 r) = .ok r) ∧
    (∀ r : LutAToB, r.wf → ∀ rest,
      decodeLutAToB (encodeLutAToB r ++ rest) = .ok (r, rest)) ∧
    (∀ r : LutAToBClut, r.wf →
      decodeLutAToBClut (encodeLutAToBClut r) = .ok r) ∧
    (∀ r : LutBToA, r.wf → ∀ rest,
      decodeLutBToA (encodeLutBToA r ++ rest) = .ok (r, rest)) ∧
    (∀ r : Measurement, r.wf → ∀ rest,
      decodeMeasurement (encodeMeasurement r ++ rest) = .ok (r, rest)) ∧
    (∀ r : MultiLocalizedUnicode, r.wf → ∀ rest,
      decodeMultiLocalizedUnicode (encodeMultiLocalizedUnicode r ++ rest) =
        .ok (r, rest)) ∧
    (∀ r : MultiProcessElements, r.wf → ∀ rest,
      decodeMultiProcessElements (encodeMultiProcessElements r ++ rest) =
        .ok (r, rest)) ∧
    (∀ r : GeneralElement, r.wf → ∀ rest,
      decodeGeneralElement (encodeGeneralElement r ++ rest) =
        .ok (r, rest)) ∧
    (∀ r : CurveSetElement, r.wf →
      decodeCurveSetElement (encodeCurveSetElement r) = .ok r) ∧
    (∀ r : D1Curve, r.wf → decodeD1Curve (encodeD1Curve r) = .ok r) ∧
    (∀ r : FormulaCurveSegment, r.wf → ∀ rest,
      decodeFormulaCurveSegment (encodeFormulaCurveSegment r ++ rest) =
        .ok (r, rest)) ∧
    (∀ r : MatrixElement, r.wf →
      decodeMatrixElement (encodeMatrixElement r) = .ok r) ∧
    (∀ r : ClutElement, r.wf →
      decodeClutElement (encodeClutElement r) = .ok r) ∧
    (∀ r : BacsElement, r.wf → ∀ rest,
      decodeBacsElement (encodeBacsElement r ++ rest) = .ok (r, rest)) ∧
    (∀ r : EacsElement, r.wf → ∀ rest,
      decodeEacsElement (encodeEacsElement r ++ rest) = .ok (r, rest)) ∧
    (∀ r : NamedColor2, r.wf → ∀ rest,
      decodeNamedColor2 (encodeNamedColor2 r ++ rest) = .ok (r, rest)) ∧
    (∀ r : ParametricCurve, r.wf → ∀ rest,
      decodeParametricCurve (encodeParametricCurve r ++ rest) =
        .ok (r, rest)) ∧
    (∀ (r : ProfileSequenceDesc) (rest : List Nat),
      decodeProfileSequenceDesc (encodeProfileSequenceDesc r ++ rest) =
        .ok (r, rest)) ∧
    (∀ (r : ProfileDescriptionSignature) (rest : List Nat),
      decodeProfileDescriptionSignature
        (encodeProfileDescriptionSignature r ++ rest) = .ok (r, rest)) ∧
    (∀ r : ProfileSequenceIdentifier, r.wf → ∀ rest,
      decodeProfileSequenceIdentifier
        (encodeProfileSequenceIdentifier r ++ rest) = .ok (r, rest)) ∧
    (∀ r : ProfileIdentifier, r.wf → ∀ rest,
      decodeProfileIdentifier (encodeProfileIdentifier r ++ rest) =
        .ok (r, rest)) ∧
    (∀ (N : Nat) (r : ResponseCurveSet16 N), r.wf → ∀ rest,
      decodeResponseCurveSet16 N (encodeResponseCurveSet16 r ++ rest) =
        .ok (r, rest)) ∧
    (∀ (N P : Nat) (r : CurveStructure N P), r.wf → ∀ rest,
      decodeCurveStructure N P (encodeCurveStructure r ++ rest) =
        .ok (r, rest)) ∧
    (∀ r : Signature, r.wf → ∀ rest,
      decodeSignature (encodeSignature r ++ rest) = .ok (r, rest)) ∧
    (∀ r : Text, r.wf → decodeText (encodeText r) = .ok r) ∧
    (∀ r : ViewingConditions, r.wf → ∀ rest,
      decodeViewingConditions (encodeViewingConditions r ++ rest) =
        .ok (r, rest)) ∧
    (∀ r : XYZType, r.wf → decodeXYZType (encodeXYZType r) = .ok r) :=
  ⟨rt_ColorantOrder, rt_U16Array, rt_SampledCurveSegment,
   rt_S15Fixed16Array, rt_U16Fixed16Array, rt_U32Array, rt_U64Array,
   rt_U8Array, rt_Chromaticity, rt_Cicp, rt_ColorantTable, rt_DataType,
   rt_Lut16, rt_Lut8, rt_LutAToB, rt_LutAToBClut, rt_LutBToA,
   rt_Measurement, rt_MultiLocalizedUnicode, rt_MultiProcessElements,
   rt_GeneralElement, rt_CurveSetElement, rt_D1Curve,
   rt_FormulaCurveSegment, rt_MatrixElement, rt_ClutElement,
   rt_BacsElement, rt_EacsElement, rt_NamedColor2, rt_ParametricCurve,
   rt_ProfileSequenceDesc, rt_ProfileDescriptionSignature,
   rt_ProfileSequenceIdentifier, rt_ProfileIdentifier,
   rt_ResponseCurveSet16, rt_CurveStructure, rt_Signature, rt_Text,
   rt_ViewingConditions, rt_XYZType⟩

/-- Witness for claim C6: round trips of a concrete `ColorantOrder`, a
concrete `U16Array` and a concrete `SampledCurveSegment` (with a
non-empty trailing buffer). -/
theorem decode_encode_roundtrip_witness :
    decodeColorantOrder (encodeColorantOrder ⟨0x636C726F, 0, 2, 1, [3, 7]⟩) =
      .ok ⟨0x636C726F, 0, 2, 1, [3, 7]⟩ ∧
    decodeU16Array (encodeU16Array ⟨0x75693136, 0, [513, 9]⟩) =
      .ok ⟨0x75693136, 0, [513, 9]⟩ ∧
    decodeSampledCurveSegment
      (encodeSampledCurveSegment ⟨0x63757266, 0, 1, [1065353216]⟩ ++ [9]) =
      .ok (⟨0x63757266, 0, 1, [1065353216]⟩, [9]) :=
  ⟨decode_encode_roundtrip.1 ⟨0x636C726F, 0, 2, 1, [3, 7]⟩
    ⟨by norm_num, by norm_num, rfl, by norm_num, by norm_num, by decide⟩,
   decode_encode_roundtrip.2.1 ⟨0x75693136, 0, [513, 9]⟩
    ⟨by norm_num, by norm_num, by decide⟩,
   decode_encode_roundtrip.2.2.1 ⟨0x63757266, 0, 1, [1065353216]⟩
    ⟨by norm_num, by norm_num, rfl, by norm_num, by decide⟩ [9]⟩

end AchromaIcc
